import Mathlib

/-!
# go-gandi, `hosting/hostingv4`: disks and SSH keys

A shallow embedding of the disk operations of `diskv4.go` and of the SSH key operations
of `sshv4.go`, with their wire and domain types and conversion functions.

* Go strings are Lean strings, Go `int` is a 64-bit signed integer carried in `Int`,
  Go `uint` a 64-bit unsigned integer carried in `Nat`; arithmetic that can wrap is
  reduced explicitly.
* A Go `error` is an `Option GoError` (`none` is `nil`), a Go pair `(T, error)` is a
  Lean pair.
* The remote call primitive `Send(method, params, &response)` is a deterministic
  function of the calls made so far and of the present call.  Every operation threads
  the list of calls made so far (`log`) and returns it extended by its own calls, so
  "how many times was `Send` invoked, and with what" is a statement about that list.
-/

namespace GoGandi

/-! ## `strconv` -/

/-- The two sentinel errors a `*strconv.NumError` can wrap. -/
inductive NumErr where
  | ErrSyntax
  | ErrRange
  deriving DecidableEq, Repr

/-- Largest `uint64`. -/
def maxUint64 : Nat := 2 ^ 64 - 1

/-- Largest `int64`. -/
def maxInt64 : Int := 2 ^ 63 - 1

/-- Smallest `int64`. -/
def minInt64 : Int := -(2 ^ 63)

/-- Conversion `int(x)` of a 64-bit value: reduction to the signed 64-bit range. -/
def toInt64 (x : Int) : Int :=
  let r := x % 2 ^ 64
  if r < 2 ^ 63 then r else r - 2 ^ 64

/-- Conversion `uint(x)` of a 64-bit value: reduction to the unsigned 64-bit range. -/
def toUint64 (x : Int) : Nat := (x % 2 ^ 64).toNat

/-- The digit loop of `strconv.ParseUint(s, 10, 64)`: characters are read left to right,
a character that is not a decimal digit stops the scan with `ErrSyntax` and value `0`,
an overflow of the accumulator stops it with `ErrRange` and value `maxUint64`. -/
def parseUintLoop : List Char → Nat → Nat × Option NumErr
  | [], n => (n, none)
  | c :: cs, n =>
    if c.isDigit then
      let d := c.toNat - 48
      if n ≥ maxUint64 / 10 + 1 then (maxUint64, some NumErr.ErrRange)
      else if n * 10 + d > maxUint64 then (maxUint64, some NumErr.ErrRange)
      else parseUintLoop cs (n * 10 + d)
    else (0, some NumErr.ErrSyntax)

/-- `strconv.ParseUint(s, 10, 64)`. -/
def parseUint (s : List Char) : Nat × Option NumErr :=
  match s with
  | [] => (0, some NumErr.ErrSyntax)
  | _ => parseUintLoop s 0

/-- The part of `strconv.ParseInt(s, 10, 0)` that follows the sign. -/
def parseSigned (neg : Bool) (digits : List Char) : Int × Option NumErr :=
  match parseUint digits with
  | (_, some NumErr.ErrSyntax) => (0, some NumErr.ErrSyntax)
  | (un, _) =>
    if !neg && un ≥ 2 ^ 63 then (maxInt64, some NumErr.ErrRange)
    else if neg && un > 2 ^ 63 then (minInt64, some NumErr.ErrRange)
    else (if neg then -(un : Int) else (un : Int), none)

/-- `strconv.ParseInt(s, 10, 0)` on a 64-bit platform. -/
def parseInt (s : List Char) : Int × Option NumErr :=
  match s with
  | [] => (0, some NumErr.ErrSyntax)
  | '+' :: rest => parseSigned false rest
  | '-' :: rest => parseSigned true rest
  | _ => parseSigned false s

/-- `strconv.Atoi`: the value and the kind of the `*strconv.NumError`, if any.  (The
standard library has a fast path for short strings; it returns what `ParseInt` returns.) -/
def Atoi (s : String) : Int × Option NumErr := parseInt s.data

/-- `strconv.Itoa`. -/
def Itoa (n : Int) : String :=
  if n < 0 then String.mk ('-' :: Nat.toDigits 10 n.natAbs)
  else String.mk (Nat.toDigits 10 n.toNat)

/-! ## Errors -/

/-- The sentinel errors of the package (`ErrNotProvided`, `ErrParse`, `ErrMismatch`);
their declarations are outside the files at hand, the names are those used in
`diskv4.go` and `disk_test.go`. -/
inductive ErrKind where
  | ErrNotProvided
  | ErrParse
  | ErrMismatch
  deriving DecidableEq, Repr

/-- Go `error` values that occur in the package. -/
inductive GoError where
  /-- `&HostingError{Func, Struct, Field, Err}`. -/
  | hostingError (fn entity field : String) (Err : ErrKind)
  /-- The value of `internalParseError(entity, field)`. -/
  | internalParse (entity field : String)
  /-- A `*strconv.NumError` returned by `strconv.Atoi` on `num`. -/
  | numError (num : String) (Err : NumErr)
  /-- An error produced by the remote call primitive. -/
  | remote (msg : String)
  /-- The error of `waitForOp` on a terminal failure status. -/
  | operationFailed (id : Int) (status : String)
  deriving DecidableEq, Repr

/-- Modelled from the spec: `internalParseError` is declared outside the files at hand;
per the spec translation "fails with `ParseError{entity, field}`", a non-nil error that
names the entity and the field. -/
def internalParseError (entity field : String) : GoError :=
  GoError.internalParse entity field

/-! ## Domain types (package `hosting`) and wire types -/

/-- Type `hosting.Disk`; `Size` is a `uint`. -/
structure Disk where
  ID : String := ""
  Name : String := ""
  Size : Nat := 0
  RegionID : String := ""
  State : String := ""
  Typ : String := ""
  VM : List String := []
  BootDisk : Bool := false
  deriving DecidableEq, Repr

/-- Type `hosting.DiskSpec`. -/
structure DiskSpec where
  RegionID : String := ""
  Name : String := ""
  Size : Nat := 0
  deriving DecidableEq, Repr

/-- Type `hosting.DiskImage`. -/
structure DiskImage where
  DiskID : String := ""
  Size : Nat := 0
  Name : String := ""
  RegionID : String := ""
  deriving DecidableEq, Repr

/-- Type `hosting.DiskFilter`. -/
structure DiskFilter where
  ID : String := ""
  RegionID : String := ""
  Name : String := ""
  VMID : String := ""
  deriving DecidableEq, Repr

/-- Type `hosting.SSHKey`. -/
structure SSHKey where
  ID : String := ""
  Fingerprint : String := ""
  Name : String := ""
  Value : String := ""
  deriving DecidableEq, Repr

/-- Wire disk. -/
structure diskv4 where
  ID : Int := 0
  Name : String := ""
  Size : Int := 0
  RegionID : Int := 0
  State : String := ""
  Typ : String := ""
  VM : List Int := []
  BootDisk : Bool := false
  deriving DecidableEq, Repr

/-- Wire creation parameters of a disk. -/
structure diskSpecv4 where
  RegionID : Int := 0
  Name : String := ""
  Size : Int := 0
  deriving DecidableEq, Repr

/-- Wire filter of a disk listing. -/
structure diskFilterv4 where
  ID : Int := 0
  RegionID : Int := 0
  Name : String := ""
  VMID : Int := 0
  deriving DecidableEq, Repr

/-- Wire SSH key. -/
structure sshkeyv4 where
  Fingerprint : String := ""
  ID : Int := 0
  Name : String := ""
  Value : String := ""
  deriving DecidableEq, Repr

/-- Operation handle returned by a mutating call. -/
structure Operation where
  ID : Int := 0
  DiskID : Int := 0
  IPID : Int := 0
  deriving DecidableEq, Repr

/-- Response of `operation.info`. -/
structure operationInfo where
  ID : Int := 0
  Status : String := ""
  deriving DecidableEq, Repr

/-! ## The remote call primitive -/

/-- A value stored under a key of a map parameter. -/
inductive Scalar where
  | int (n : Int)
  | str (s : String)
  deriving DecidableEq, Repr

/-- A positional parameter of a remote call: an integer or a string-keyed map. -/
inductive Param where
  | int (n : Int)
  | map (kv : List (String × Scalar))
  deriving DecidableEq, Repr

/-- One invocation of `Send`: method name and positional parameters. -/
structure Call where
  method : String
  params : List Param
  deriving DecidableEq, Repr

/-- What one invocation of `Send` does: the error it returns and, for each type of
response slot used in the package, the contents of a slot of that type after the call
(every slot is zero-valued before the call). -/
structure Reply where
  err : Option GoError := none
  operation : Operation := {}
  disk : diskv4 := {}
  disks : List diskv4 := []
  info : operationInfo := {}
  flag : Bool := false
  key : sshkeyv4 := {}
  keys : List sshkeyv4 := []

/-- Type `Hostingv4`: the client, holding the remote call primitive.  `Send log c` is
the outcome of call `c` made after the calls in `log`. -/
structure Hostingv4 where
  Send : List Call → Call → Reply

/-! ## Helpers declared outside the files at hand -/

/-- Modelled from the spec: `structToMap` is declared outside the files at hand; it
turns a wire struct into the sparse map sent to the remote side, keyed by the `xmlrpc`
tags, "optional fields ... are conveyed by omission": a zero-valued field has no key.
This is its action on a `diskSpecv4`. -/
def structToMap_diskSpecv4 (d : diskSpecv4) : List (String × Scalar) :=
  (if d.RegionID = 0 then [] else [("datacenter_id", Scalar.int d.RegionID)]) ++
  (if d.Name = "" then [] else [("name", Scalar.str d.Name)]) ++
  (if d.Size = 0 then [] else [("size", Scalar.int d.Size)])

/-- Modelled from the spec: `structToMap` (declared outside the files at hand, see
`structToMap_diskSpecv4`) on a `diskFilterv4`. -/
def structToMap_diskFilterv4 (f : diskFilterv4) : List (String × Scalar) :=
  (if f.ID = 0 then [] else [("id", Scalar.int f.ID)]) ++
  (if f.RegionID = 0 then [] else [("datacenter_id", Scalar.int f.RegionID)]) ++
  (if f.Name = "" then [] else [("name", Scalar.str f.Name)]) ++
  (if f.VMID = 0 then [] else [("vm_id", Scalar.int f.VMID)])

/-- Modelled from the spec: `waitForOp` is declared outside the files at hand.  It polls
`operation.info` with `[op.ID]`; a `Send` error is returned as it is, status `DONE` ends
the wait with `nil`, status `ERROR` ends it with an error carrying the operation id and
the status, any other status polls again.  The source loop has no bound; here `fuel`
bounds the number of polls and the result is `none` when it runs out. -/
def waitForOp (h : Hostingv4) (op : Operation) :
    Nat → List Call → Option (Option GoError) × List Call
  | 0, log => (none, log)
  | fuel + 1, log =>
    let c : Call := ⟨"operation.info", [Param.int op.ID]⟩
    let r := h.Send log c
    match r.err with
    | some e => (some (some e), log ++ [c])
    | none =>
      if r.info.Status = "DONE" then (some none, log ++ [c])
      else if r.info.Status = "ERROR" then
        (some (some (GoError.operationFailed op.ID r.info.Status)), log ++ [c])
      else waitForOp h op fuel (log ++ [c])

/-! ## Conversion functions (`diskv4.go`, `sshv4.go`) -/

/-- `toDiskSpecv4` converts a Hosting DiskSpec to a v4 DiskSpec. -/
def toDiskSpecv4 (disk : DiskSpec) : diskSpecv4 × Option GoError :=
  match Atoi disk.RegionID with
  | (_, some _) => ({}, some (internalParseError "DiskSpec" "RegionID"))
  | (region, none) =>
    ({ RegionID := region, Name := disk.Name, Size := toInt64 disk.Size }, none)

/-- `isIgnorableErr`: true if an Atoi conversion error is caused by a bad string
format (ErrSyntax) or there is no error. -/
def isIgnorableErr (err : Option NumErr) : Bool :=
  match err with
  | some e => e = NumErr.ErrSyntax
  | none => true

/-- `toDiskFilterv4` converts a Hosting DiskFilter to a v4 DiskFilter. -/
def toDiskFilterv4 (disk : DiskFilter) : diskFilterv4 × Option GoError :=
  let (region, err) := Atoi disk.RegionID
  if !isIgnorableErr err then ({}, some (internalParseError "DiskFilter" "RegionID"))
  else
    let (id, err) := Atoi disk.ID
    if !isIgnorableErr err then ({}, some (internalParseError "DiskFilter" "ID"))
    else
      let (vmid, err) := Atoi disk.VMID
      if !isIgnorableErr err then ({}, some (internalParseError "DiskFilter" "VMID"))
      else ({ RegionID := region, ID := id, VMID := vmid }, none)

/-- `fromDiskv4` transforms a v4 Disk to a Hosting Disk, casting integers to strings. -/
def fromDiskv4 (disk : diskv4) : Disk :=
  { ID := Itoa disk.ID
    Name := disk.Name
    Size := toUint64 disk.Size
    RegionID := Itoa disk.RegionID
    State := disk.State
    Typ := disk.Typ
    VM := disk.VM.map Itoa
    BootDisk := disk.BootDisk }

/-- `toSSHKey` transforms a v4 SSH key to a generic one. -/
def toSSHKey (key : sshkeyv4) : SSHKey :=
  { ID := Itoa key.ID
    Fingerprint := key.Fingerprint
    Name := key.Name
    Value := key.Value }

/-! ## Disk operations (`diskv4.go`)

Operations that wait for an asynchronous operation take the polling budget `fuel` and
return `none` in the first component when it runs out. -/

/-- `diskFromID`: obtain a Hosting Disk from an integer ID (v4 representation). -/
def diskFromID (h : Hostingv4) (id : Int) (log : List Call) :
    (Disk × Option GoError) × List Call :=
  let c : Call := ⟨"hosting.disk.info", [Param.int id]⟩
  let r := h.Send log c
  match r.err with
  | some e => (({}, some e), log ++ [c])
  | none => ((fromDiskv4 r.disk, none), log ++ [c])

/-- `CreateDisk` creates a new empty disk. -/
def CreateDisk (h : Hostingv4) (fuel : Nat) (newDisk : DiskSpec) (log : List Call) :
    Option (Disk × Option GoError) × List Call :=
  match toDiskSpecv4 newDisk with
  | (_, some err) => (some ({}, some err), log)
  | (diskv4, none) =>
    let disk := structToMap_diskSpecv4 diskv4
    let c : Call := ⟨"hosting.disk.create", [Param.map disk]⟩
    let r := h.Send log c
    match r.err with
    | some err => (some ({}, some err), log ++ [c])
    | none =>
      match waitForOp h r.operation fuel (log ++ [c]) with
      | (none, log1) => (none, log1)
      | (some (some err), log1) => (some ({}, some err), log1)
      | (some none, log1) =>
        let (res, log2) := diskFromID h r.operation.DiskID log1
        (some res, log2)

/-- `CreateDiskFromImage` creates a disk with the same data as `srcDisk`. -/
def CreateDiskFromImage (h : Hostingv4) (fuel : Nat) (newDisk : DiskSpec)
    (srcDisk : DiskImage) (log : List Call) :
    Option (Disk × Option GoError) × List Call :=
  let fn := "CreateDiskFromImage"
  if srcDisk.DiskID = "" then
    (some ({}, some (GoError.hostingError fn "DiskImage" "DiskID" ErrKind.ErrNotProvided)), log)
  else
    match toDiskSpecv4 newDisk with
    | (_, some err) => (some ({}, some err), log)
    | (diskv4, none) =>
      let disk := structToMap_diskSpecv4 diskv4
      match Atoi srcDisk.DiskID with
      | (_, some _) =>
        (some ({}, some (GoError.hostingError fn "DiskImage" "DiskID" ErrKind.ErrParse)), log)
      | (imageid, none) =>
        let c : Call := ⟨"hosting.disk.create_from", [Param.map disk, Param.int imageid]⟩
        let r := h.Send log c
        match r.err with
        | some err => (some ({}, some err), log ++ [c])
        | none =>
          match waitForOp h r.operation fuel (log ++ [c]) with
          | (none, log1) => (none, log1)
          | (some (some err), log1) => (some ({}, some err), log1)
          | (some none, log1) =>
            let (res, log2) := diskFromID h r.operation.DiskID log1
            (some res, log2)

/-- `DescribeDisks` returns a list of disks filtered with the options provided in
`diskfilter`. -/
def DescribeDisks (h : Hostingv4) (diskfilter : DiskFilter) (log : List Call) :
    (List Disk × Option GoError) × List Call :=
  match toDiskFilterv4 diskfilter with
  | (_, some err) => (([], some err), log)
  | (filterv4, none) =>
    let filter := structToMap_diskFilterv4 filterv4
    let params : List Param := if filter.length > 0 then [Param.map filter] else []
    let c : Call := ⟨"hosting.disk.list", params⟩
    let r := h.Send log c
    match r.err with
    | some err => (([], some err), log ++ [c])
    | none => ((r.disks.map fromDiskv4, none), log ++ [c])

/-- `ListDisks` lists every disk. -/
def ListDisks (h : Hostingv4) (log : List Call) : (List Disk × Option GoError) × List Call :=
  DescribeDisks h {} log

/-- `DiskFromID` is a helper function to get a Disk given its ID; if the disk does not
exist or an error occurred it returns an empty Disk. -/
def DiskFromID (h : Hostingv4) (id : String) (log : List Call) : Disk × List Call :=
  match DescribeDisks h { ID := id } log with
  | ((_, some _), log1) => ({}, log1)
  | (([], none), log1) => ({}, log1)
  | ((d :: _, none), log1) => (d, log1)

/-- `DeleteDisk` deletes the Disk `disk`. -/
def DeleteDisk (h : Hostingv4) (fuel : Nat) (disk : Disk) (log : List Call) :
    Option (Option GoError) × List Call :=
  let fn := "DeleteDisk"
  if disk.ID = "" then
    (some (some (GoError.hostingError fn "Disk" "ID" ErrKind.ErrNotProvided)), log)
  else
    match Atoi disk.ID with
    | (_, some _) => (some (some (GoError.hostingError fn "Disk" "ID" ErrKind.ErrParse)), log)
    | (diskid, none) =>
      let c : Call := ⟨"hosting.disk.delete", [Param.int diskid]⟩
      let r := h.Send log c
      match r.err with
      | some err => (some (some err), log ++ [c])
      | none => waitForOp h r.operation fuel (log ++ [c])

/-- `ExtendDisk` extends `disk.Size` by `size` (original size + `size`); `size` is in
GB.  Both sizes are `uint`, the sum wraps at 64 bits and is converted to `int`. -/
def ExtendDisk (h : Hostingv4) (fuel : Nat) (disk : Disk) (size : Nat) (log : List Call) :
    Option (Disk × Option GoError) × List Call :=
  let fn := "ExtendDisk"
  if disk.ID = "" then
    (some ({}, some (GoError.hostingError fn "Disk" "ID" ErrKind.ErrNotProvided)), log)
  else
    let newSize : Nat := (disk.Size + size * 1024) % 2 ^ 64
    let diskupdate : List (String × Scalar) := [("size", Scalar.int (toInt64 (newSize : Int)))]
    match Atoi disk.ID with
    | (_, some _) =>
      (some ({}, some (GoError.hostingError fn "Disk" "ID" ErrKind.ErrParse)), log)
    | (diskid, none) =>
      let c : Call := ⟨"hosting.disk.update", [Param.int diskid, Param.map diskupdate]⟩
      let r := h.Send log c
      match r.err with
      | some err => (some ({}, some err), log ++ [c])
      | none =>
        match waitForOp h r.operation fuel (log ++ [c]) with
        | (none, log1) => (none, log1)
        | (some (some err), log1) => (some ({}, some err), log1)
        | (some none, log1) =>
          let (res, log2) := diskFromID h r.operation.DiskID log1
          (some res, log2)

/-- `RenameDisk` changes the name of `disk` to `newName`. -/
def RenameDisk (h : Hostingv4) (fuel : Nat) (disk : Disk) (newName : String)
    (log : List Call) : Option (Disk × Option GoError) × List Call :=
  let fn := "RenameDisk"
  if disk.ID = "" then
    (some ({}, some (GoError.hostingError fn "Disk" "ID" ErrKind.ErrNotProvided)), log)
  else
    let diskupdate : List (String × Scalar) := [("name", Scalar.str newName)]
    match Atoi disk.ID with
    | (_, some _) =>
      (some ({}, some (GoError.hostingError fn "Disk" "ID" ErrKind.ErrParse)), log)
    | (diskid, none) =>
      let c : Call := ⟨"hosting.disk.update", [Param.int diskid, Param.map diskupdate]⟩
      let r := h.Send log c
      match r.err with
      | some err => (some ({}, some err), log ++ [c])
      | none =>
        match waitForOp h r.operation fuel (log ++ [c]) with
        | (none, log1) => (none, log1)
        | (some (some err), log1) => (some ({}, some err), log1)
        | (some none, log1) =>
          let (res, log2) := diskFromID h r.operation.DiskID log1
          (some res, log2)

/-! ## Sample remote sides -/

/-- A remote side that answers every call without error and leaves every response slot
zero-valued. -/
def idleCaller : Hostingv4 := ⟨fun _ _ => {}⟩

/-- A remote side that reports every operation as `DONE`, and on `hosting.disk.info`
answers with the disk `d`. -/
def doneCaller (d : diskv4) : Hostingv4 :=
  ⟨fun _ c =>
    if c.method = "operation.info" then { info := { ID := 1, Status := "DONE" } }
    else if c.method = "hosting.disk.info" then { disk := d }
    else { operation := { ID := 1, DiskID := d.ID } }⟩

/-! ## SSH key operations (`sshv4.go`) -/

/-- `keyFromID` is an internal function to get a general SSHKey from a v4 ID; the error
of `Send` is dropped. -/
def keyFromID (h : Hostingv4) (id : Int) (log : List Call) : SSHKey × List Call :=
  let c : Call := ⟨"hosting.ssh.info", [Param.int id]⟩
  let r := h.Send log c
  (toSSHKey r.key, log ++ [c])

/-- `CreateKey` creates a key from the given name and value. -/
def CreateKey (h : Hostingv4) (name value : String) (log : List Call) :
    (SSHKey × Option GoError) × List Call :=
  let c : Call := ⟨"hosting.ssh.create",
    [Param.map [("name", Scalar.str name), ("value", Scalar.str value)]]⟩
  let r := h.Send log c
  match r.err with
  | some err => (({}, some err), log ++ [c])
  | none =>
    let (key, log1) := keyFromID h r.key.ID (log ++ [c])
    ((key, none), log1)

/-- `DeleteKey` deletes an SSH Key. -/
def DeleteKey (h : Hostingv4) (key : SSHKey) (log : List Call) :
    Option GoError × List Call :=
  match Atoi key.ID with
  | (_, some e) => (some (GoError.numError key.ID e), log)
  | (id, none) =>
    let c : Call := ⟨"hosting.ssh.delete", [Param.int id]⟩
    let r := h.Send log c
    if r.flag then (none, log ++ [c])
    else (r.err, log ++ [c])

/-- `KeyFromName` returns the key with name `name`, or an empty object if the key
doesn't exist. -/
def KeyFromName (h : Hostingv4) (name : String) (log : List Call) : SSHKey × List Call :=
  let c : Call := ⟨"hosting.ssh.list", [Param.map [("name", Scalar.str name)]]⟩
  let r := h.Send log c
  match r.err, r.keys with
  | some _, _ => ({}, log ++ [c])
  | none, [] => ({}, log ++ [c])
  | none, key :: _ => keyFromID h key.ID (log ++ [c])

/-- The loop of `ListKeys` over the response of `hosting.ssh.list`: each entry is
fetched again by id and appended to `keys`. -/
def ListKeysLoop (h : Hostingv4) : List sshkeyv4 → List SSHKey → List Call →
    List SSHKey × List Call
  | [], keys, log => (keys, log)
  | key :: rest, keys, log =>
    let (fullkey, log1) := keyFromID h key.ID log
    ListKeysLoop h rest (keys ++ [fullkey]) log1

/-- `ListKeys` lists every available key; the error of the list call is dropped. -/
def ListKeys (h : Hostingv4) (log : List Call) : List SSHKey × List Call :=
  let c : Call := ⟨"hosting.ssh.list", []⟩
  let r := h.Send log c
  ListKeysLoop h r.keys [] (log ++ [c])

/-! ## Names for the calls of the disk operations

These are not functions of the source; they name the remote calls that the operations
above build, so that statements about them stay readable. -/

/-- The call built by `CreateDisk`. -/
def createCall (newDisk : DiskSpec) : Call :=
  ⟨"hosting.disk.create", [Param.map (structToMap_diskSpecv4 (toDiskSpecv4 newDisk).1)]⟩

/-- The call built by `CreateDiskFromImage`. -/
def createFromCall (newDisk : DiskSpec) (srcDisk : DiskImage) : Call :=
  ⟨"hosting.disk.create_from",
    [Param.map (structToMap_diskSpecv4 (toDiskSpecv4 newDisk).1),
      Param.int (Atoi srcDisk.DiskID).1]⟩

/-- The call built by `DeleteDisk`. -/
def deleteCall (disk : Disk) : Call :=
  ⟨"hosting.disk.delete", [Param.int (Atoi disk.ID).1]⟩

/-- The call built by `ExtendDisk`. -/
def extendCall (disk : Disk) (size : Nat) : Call :=
  ⟨"hosting.disk.update", [Param.int (Atoi disk.ID).1,
    Param.map [("size", Scalar.int (toInt64 (((disk.Size + size * 1024) % 2 ^ 64 : Nat) : Int)))]]⟩

/-- The call built by `RenameDisk`. -/
def renameCall (disk : Disk) (newName : String) : Call :=
  ⟨"hosting.disk.update", [Param.int (Atoi disk.ID).1,
    Param.map [("name", Scalar.str newName)]]⟩

/-- The poll of `waitForOp`. -/
def pollCall (op : Operation) : Call := ⟨"operation.info", [Param.int op.ID]⟩

/-- The call built by `diskFromID`. -/
def infoCall (id : Int) : Call := ⟨"hosting.disk.info", [Param.int id]⟩

/-- The call built by `DescribeDisks`: the sparse map of the wire filter is a parameter
only if it has a key. -/
def listDisksCall (diskfilter : DiskFilter) : Call :=
  ⟨"hosting.disk.list",
    if (structToMap_diskFilterv4 (toDiskFilterv4 diskfilter).1).length > 0
    then [Param.map (structToMap_diskFilterv4 (toDiskFilterv4 diskfilter).1)] else []⟩

/-- The call built by `keyFromID`. -/
def keyInfoCall (id : Int) : Call := ⟨"hosting.ssh.info", [Param.int id]⟩

/-- The part that `CreateDisk`, `CreateDiskFromImage`, `ExtendDisk` and `RenameDisk` have
in common once the call `c` is built: send it, wait for the operation, read the disk
back. -/
def mutateDisk (h : Hostingv4) (fuel : Nat) (c : Call) (log : List Call) :
    Option (Disk × Option GoError) × List Call :=
  let r := h.Send log c
  match r.err with
  | some err => (some ({}, some err), log ++ [c])
  | none =>
    match waitForOp h r.operation fuel (log ++ [c]) with
    | (none, log1) => (none, log1)
    | (some (some err), log1) => (some ({}, some err), log1)
    | (some none, log1) =>
      let (res, log2) := diskFromID h r.operation.DiskID log1
      (some res, log2)

/-! ## Properties of a run of a mutating operation

Here `c` is the mutating call of the operation, `log` the calls made before it and `run`
what the operation returns: its result and the calls made up to its end. -/

/-- Errors are returned as they are: if `Send` fails on `c`, its error is returned with
the zero Disk and `c` is the only call made; if `c` is accepted and `waitForOp` fails, its
error is returned with the zero Disk and after `c` only the polls of `waitForOp` are made;
and a nil error is returned only if `c` was accepted and `waitForOp` returned nil. -/
def ReturnsErrorsUnchanged (h : Hostingv4) (fuel : Nat) (log : List Call) (c : Call)
    (run : Option (Disk × Option GoError) × List Call) : Prop :=
  (∀ e, (h.Send log c).err = some e → run = (some ({}, some e), log ++ [c]))
  ∧ (∀ e l1, (h.Send log c).err = none →
      waitForOp h (h.Send log c).operation fuel (log ++ [c]) = (some (some e), l1) →
      run = (some ({}, some e), l1)
        ∧ ∃ n, l1 = log ++ c :: List.replicate n (pollCall (h.Send log c).operation))
  ∧ (∀ d l2, run = (some (d, none), l2) →
      (h.Send log c).err = none
        ∧ ∃ l1, waitForOp h (h.Send log c).operation fuel (log ++ [c]) = (some none, l1))

/-- The disk is read back once: if `c` is accepted and `waitForOp` returns nil, the calls
made are `c`, the polls of `waitForOp` and one `hosting.disk.info` whose parameter is the
DiskID of the operation handle; the result is `fromDiskv4` of the response of that read
with a nil error, or the zero Disk with the error of the read. -/
def ReadsBackOnce (h : Hostingv4) (fuel : Nat) (log : List Call) (c : Call)
    (run : Option (Disk × Option GoError) × List Call) : Prop :=
  ∀ l1, (h.Send log c).err = none →
    waitForOp h (h.Send log c).operation fuel (log ++ [c]) = (some none, l1) →
    (∃ n, l1 = log ++ c :: List.replicate n (pollCall (h.Send log c).operation))
    ∧ run.2 = l1 ++ [infoCall (h.Send log c).operation.DiskID]
    ∧ (run.2.drop log.length).filter (fun x => decide (x.method = "hosting.disk.info"))
        = [infoCall (h.Send log c).operation.DiskID]
    ∧ (∀ e, (h.Send l1 (infoCall (h.Send log c).operation.DiskID)).err = some e →
        run.1 = some ({}, some e))
    ∧ ((h.Send l1 (infoCall (h.Send log c).operation.DiskID)).err = none →
        run.1 = some
          (fromDiskv4 (h.Send l1 (infoCall (h.Send log c).operation.DiskID)).disk, none))

/-! ## More sample remote sides -/

/-- A remote side on which every call fails with the error `e`. -/
def failCaller (e : GoError) : Hostingv4 := ⟨fun _ _ => { err := some e }⟩

/-- A remote side that accepts every call and reports every operation as `ERROR`. -/
def errorStatusCaller : Hostingv4 :=
  ⟨fun _ c =>
    if c.method = "operation.info" then { info := { ID := 1, Status := "ERROR" } }
    else { operation := { ID := 1, DiskID := 7 } }⟩

/-- A remote side whose boolean response is `flag` and whose error is `err`. -/
def flagCaller (flag : Bool) (err : Option GoError) : Hostingv4 :=
  ⟨fun _ _ => { flag := flag, err := err }⟩

/-- A remote side that lists the wire disks `ds`. -/
def listCaller (ds : List diskv4) : Hostingv4 := ⟨fun _ _ => { disks := ds }⟩

/-- A wire disk like the first one of the tests, attached to two machines. -/
def sampleWireDisk : diskv4 :=
  { ID := 1
    Name := "sys_disk1"
    Size := 10240
    RegionID := 4
    State := "created"
    Typ := "data"
    VM := [1, -3]
    BootDisk := true }

/-- The call built by `DeleteKey`. -/
def deleteKeyCall (key : SSHKey) : Call :=
  ⟨"hosting.ssh.delete", [Param.int (Atoi key.ID).1]⟩

/-- A remote side that lists two keys by id and name only, and answers a fetch with a
key whose value records how many calls were made before. -/
def keysCaller : Hostingv4 :=
  ⟨fun log c =>
    if c.method = "hosting.ssh.list" then
      { keys := [{ ID := 3, Name := "a" }, { ID := 5, Name := "b" }] }
    else { key := { ID := 9, Value := Itoa log.length } }⟩

/-! ## The type assertion of `isIgnorableErr` -/

/-- The list of calls only grows while waiting for an operation. -/
theorem waitForOp_log (h : Hostingv4) (op : Operation) (fuel : Nat) :
    ∀ log : List Call, ∃ rest, (waitForOp h op fuel log).2 = log ++ rest := by
  induction fuel with
  | zero => intro log; exact ⟨[], by simp [waitForOp]⟩
  | succ n ih =>
    intro log
    unfold waitForOp
    simp only
    split
    · exact ⟨_, rfl⟩
    · split
      · exact ⟨_, rfl⟩
      · split
        · exact ⟨_, rfl⟩
        · obtain ⟨rest, hrest⟩ := ih (log ++ [⟨"operation.info", [Param.int op.ID]⟩])
          exact ⟨(⟨"operation.info", [Param.int op.ID]⟩ : Call) :: rest, by rw [hrest]; simp⟩

/-- Reading a disk by id is exactly one `hosting.disk.info` call. -/
theorem diskFromID_log (h : Hostingv4) (id : Int) (log : List Call) :
    (diskFromID h id log).2 = log ++ [⟨"hosting.disk.info", [Param.int id]⟩] := by
  unfold diskFromID
  simp only
  split <;> rfl

/-! ## Missing and malformed identifiers -/

/-- C1: for a Disk with an empty ID, DeleteDisk, RenameDisk (any new name) and ExtendDisk
(any size) return a HostingError with Err ErrNotProvided naming "Disk"/"ID"; for any
DiskSpec and a DiskImage with an empty DiskID (whatever its RegionID) CreateDiskFromImage
returns a HostingError with Err ErrNotProvided naming "DiskImage"/"DiskID".  In all four
cases the list of calls is unchanged (Send is not invoked) and the returned Disk is the
zero Disk. -/
theorem empty_id_not_provided (h : Hostingv4) (fuel : Nat) (log : List Call)
    (disk : Disk) (newName : String) (size : Nat) (newDisk : DiskSpec) (srcDisk : DiskImage)
    (hdisk : disk.ID = "") (himg : srcDisk.DiskID = "") :
    DeleteDisk h fuel disk log
      = (some (some (GoError.hostingError "DeleteDisk" "Disk" "ID" ErrKind.ErrNotProvided)), log)
    ∧ RenameDisk h fuel disk newName log
      = (some ({}, some (GoError.hostingError "RenameDisk" "Disk" "ID" ErrKind.ErrNotProvided)),
          log)
    ∧ ExtendDisk h fuel disk size log
      = (some ({}, some (GoError.hostingError "ExtendDisk" "Disk" "ID" ErrKind.ErrNotProvided)),
          log)
    ∧ CreateDiskFromImage h fuel newDisk srcDisk log
      = (some ({}, some (GoError.hostingError "CreateDiskFromImage" "DiskImage" "DiskID"
          ErrKind.ErrNotProvided)), log) := by
  refine ⟨?_, ?_, ?_, ?_⟩
  · simp [DeleteDisk, hdisk]
  · simp [RenameDisk, hdisk]
  · simp [ExtendDisk, hdisk]
  · simp [CreateDiskFromImage, himg]

/-- C1 at the inputs of TestDiskFunctionsBadID: the zero Disk, new name "Nom", size 1,
the zero DiskSpec and DiskImage{RegionID: "badid"}. -/
theorem empty_id_not_provided_witness :
    (({} : Disk).ID = "" ∧ ({ RegionID := "badid" } : DiskImage).DiskID = "")
    ∧ (DeleteDisk idleCaller 2 {} []
        = (some (some (GoError.hostingError "DeleteDisk" "Disk" "ID" ErrKind.ErrNotProvided)),
            [])
      ∧ RenameDisk idleCaller 2 {} "Nom" []
        = (some ({}, some (GoError.hostingError "RenameDisk" "Disk" "ID"
            ErrKind.ErrNotProvided)), [])
      ∧ ExtendDisk idleCaller 2 {} 1 []
        = (some ({}, some (GoError.hostingError "ExtendDisk" "Disk" "ID"
            ErrKind.ErrNotProvided)), [])
      ∧ CreateDiskFromImage idleCaller 2 {} { RegionID := "badid" } []
        = (some ({}, some (GoError.hostingError "CreateDiskFromImage" "DiskImage" "DiskID"
            ErrKind.ErrNotProvided)), [])) :=
  ⟨⟨rfl, rfl⟩, empty_id_not_provided idleCaller 2 [] {} "Nom" 1 {} { RegionID := "badid" } rfl rfl⟩

/-- C2: for a Disk whose ID is non-empty and rejected by strconv.Atoi, DeleteDisk,
RenameDisk and ExtendDisk return a HostingError with Err ErrParse naming "Disk"/"ID"; for
a DiskSpec whose RegionID Atoi accepts and a DiskImage whose DiskID is non-empty and
rejected, CreateDiskFromImage returns a HostingError with Err ErrParse naming
"DiskImage"/"DiskID"; CreateDisk on a DiskSpec with a non-empty rejected RegionID returns
the (non-nil) parse error for "DiskSpec"/"RegionID".  In every case the list of calls is
unchanged: Send is not invoked. -/
theorem unparsable_id_parse_error (h : Hostingv4) (fuel : Nat) (log : List Call)
    (disk : Disk) (newName : String) (size : Nat)
    (newDisk : DiskSpec) (srcDisk : DiskImage) (badSpec : DiskSpec)
    (hne : disk.ID ≠ "") (hbad : (Atoi disk.ID).2 ≠ none)
    (hregion : (Atoi newDisk.RegionID).2 = none)
    (hine : srcDisk.DiskID ≠ "") (hibad : (Atoi srcDisk.DiskID).2 ≠ none)
    (_hsne : badSpec.RegionID ≠ "") (hsbad : (Atoi badSpec.RegionID).2 ≠ none) :
    DeleteDisk h fuel disk log
      = (some (some (GoError.hostingError "DeleteDisk" "Disk" "ID" ErrKind.ErrParse)), log)
    ∧ RenameDisk h fuel disk newName log
      = (some ({}, some (GoError.hostingError "RenameDisk" "Disk" "ID" ErrKind.ErrParse)), log)
    ∧ ExtendDisk h fuel disk size log
      = (some ({}, some (GoError.hostingError "ExtendDisk" "Disk" "ID" ErrKind.ErrParse)), log)
    ∧ CreateDiskFromImage h fuel newDisk srcDisk log
      = (some ({}, some (GoError.hostingError "CreateDiskFromImage" "DiskImage" "DiskID"
          ErrKind.ErrParse)), log)
    ∧ CreateDisk h fuel badSpec log
      = (some ({}, some (internalParseError "DiskSpec" "RegionID")), log) := by
  rcases hA : Atoi disk.ID with ⟨v, _ | e⟩
  · rw [hA] at hbad; exact absurd rfl hbad
  rcases hI : Atoi srcDisk.DiskID with ⟨w, _ | e2⟩
  · rw [hI] at hibad; exact absurd rfl hibad
  rcases hS : Atoi badSpec.RegionID with ⟨u, _ | e3⟩
  · rw [hS] at hsbad; exact absurd rfl hsbad
  rcases hR : Atoi newDisk.RegionID with ⟨r, _ | e4⟩
  swap
  · rw [hR] at hregion; cases hregion
  refine ⟨?_, ?_, ?_, ?_, ?_⟩
  · simp [DeleteDisk, hne, hA]
  · simp [RenameDisk, hne, hA]
  · simp [ExtendDisk, hne, hA]
  · simp [CreateDiskFromImage, hine, toDiskSpecv4, hR, hI]
  · simp [CreateDisk, toDiskSpecv4, hS]

/-- C2 at the inputs of the tests: Disk{ID: "badid"}, DiskSpec{RegionID: "1"} with
DiskImage{DiskID: "badid", RegionID: "1"}, and DiskSpec{RegionID: "ThisisnotAnID"}. -/
theorem unparsable_id_parse_error_witness :
    ((({ ID := "badid" } : Disk).ID ≠ "" ∧ (Atoi ({ ID := "badid" } : Disk).ID).2 ≠ none)
      ∧ (Atoi ({ RegionID := "1" } : DiskSpec).RegionID).2 = none
      ∧ (({ DiskID := "badid", RegionID := "1" } : DiskImage).DiskID ≠ ""
        ∧ (Atoi ({ DiskID := "badid", RegionID := "1" } : DiskImage).DiskID).2 ≠ none)
      ∧ (({ RegionID := "ThisisnotAnID" } : DiskSpec).RegionID ≠ ""
        ∧ (Atoi ({ RegionID := "ThisisnotAnID" } : DiskSpec).RegionID).2 ≠ none))
    ∧ (DeleteDisk idleCaller 2 { ID := "badid" } []
        = (some (some (GoError.hostingError "DeleteDisk" "Disk" "ID" ErrKind.ErrParse)), [])
      ∧ RenameDisk idleCaller 2 { ID := "badid" } "nom" []
        = (some ({}, some (GoError.hostingError "RenameDisk" "Disk" "ID" ErrKind.ErrParse)), [])
      ∧ ExtendDisk idleCaller 2 { ID := "badid" } 1 []
        = (some ({}, some (GoError.hostingError "ExtendDisk" "Disk" "ID" ErrKind.ErrParse)), [])
      ∧ CreateDiskFromImage idleCaller 2 { RegionID := "1" }
          { DiskID := "badid", RegionID := "1" } []
        = (some ({}, some (GoError.hostingError "CreateDiskFromImage" "DiskImage" "DiskID"
            ErrKind.ErrParse)), [])
      ∧ CreateDisk idleCaller 2 { RegionID := "ThisisnotAnID" } []
        = (some ({}, some (internalParseError "DiskSpec" "RegionID")), [])) :=
  ⟨⟨⟨by decide, by decide⟩, by decide, ⟨by decide, by decide⟩, ⟨by decide, by decide⟩⟩,
    unparsable_id_parse_error idleCaller 2 [] { ID := "badid" } "nom" 1 { RegionID := "1" }
      { DiskID := "badid", RegionID := "1" } { RegionID := "ThisisnotAnID" }
      (by decide) (by decide) (by decide) (by decide) (by decide) (by decide) (by decide)⟩

/-! ## The first call of each mutating operation -/

/-- Once its inputs pass validation, CreateDisk invokes Send, first with
"hosting.disk.create" and the sparse map of the translated DiskSpec. -/
theorem CreateDisk_first_call (h : Hostingv4) (fuel : Nat) (newDisk : DiskSpec)
    (log : List Call) (region : Int) (hA : Atoi newDisk.RegionID = (region, none)) :
    ∃ rest, (CreateDisk h fuel newDisk log).2
      = log ++ (⟨"hosting.disk.create", [Param.map (structToMap_diskSpecv4
          { RegionID := region, Name := newDisk.Name, Size := toInt64 newDisk.Size })]⟩ : Call)
        :: rest := by
  unfold CreateDisk
  simp only [toDiskSpecv4, hA]
  split
  · exact ⟨[], by simp⟩
  · obtain ⟨rest, hr⟩ := waitForOp_log h
      (h.Send log ⟨"hosting.disk.create", [Param.map (structToMap_diskSpecv4
          { RegionID := region, Name := newDisk.Name, Size := toInt64 newDisk.Size })]⟩).operation
      fuel (log ++ [⟨"hosting.disk.create", [Param.map (structToMap_diskSpecv4
          { RegionID := region, Name := newDisk.Name, Size := toInt64 newDisk.Size })]⟩])
    split <;> rename_i heq <;> rw [heq] at hr <;> simp only at hr <;>
      simp only [diskFromID_log, hr, List.append_assoc, List.singleton_append,
        List.cons_append] <;> exact ⟨_, rfl⟩

/-- Once its inputs pass validation, CreateDiskFromImage invokes Send, first with
"hosting.disk.create_from", the sparse map of the translated DiskSpec and the image id. -/
theorem CreateDiskFromImage_first_call (h : Hostingv4) (fuel : Nat) (newDisk : DiskSpec)
    (srcDisk : DiskImage) (log : List Call) (region imageid : Int)
    (hne : srcDisk.DiskID ≠ "") (hA : Atoi newDisk.RegionID = (region, none))
    (hI : Atoi srcDisk.DiskID = (imageid, none)) :
    ∃ rest, (CreateDiskFromImage h fuel newDisk srcDisk log).2
      = log ++ (⟨"hosting.disk.create_from", [Param.map (structToMap_diskSpecv4
          { RegionID := region, Name := newDisk.Name, Size := toInt64 newDisk.Size }),
          Param.int imageid]⟩ : Call) :: rest := by
  unfold CreateDiskFromImage
  simp only [toDiskSpecv4, hA, hI, hne, if_false]
  split
  · exact ⟨[], by simp⟩
  · obtain ⟨rest, hr⟩ := waitForOp_log h
      (h.Send log ⟨"hosting.disk.create_from", [Param.map (structToMap_diskSpecv4
          { RegionID := region, Name := newDisk.Name, Size := toInt64 newDisk.Size }),
          Param.int imageid]⟩).operation
      fuel (log ++ [⟨"hosting.disk.create_from", [Param.map (structToMap_diskSpecv4
          { RegionID := region, Name := newDisk.Name, Size := toInt64 newDisk.Size }),
          Param.int imageid]⟩])
    split <;> rename_i heq <;> rw [heq] at hr <;> simp only at hr <;>
      simp only [diskFromID_log, hr, List.append_assoc, List.singleton_append,
        List.cons_append] <;> exact ⟨_, rfl⟩

/-- Once the disk id passes validation, ExtendDisk invokes Send, first with
"hosting.disk.update", the id and the map whose "size" is the sum of the size of the
Disk as given and 1024 times the extension. -/
theorem ExtendDisk_first_call (h : Hostingv4) (fuel : Nat) (disk : Disk) (size : Nat)
    (log : List Call) (diskid : Int)
    (hne : disk.ID ≠ "") (hA : Atoi disk.ID = (diskid, none)) :
    ∃ rest, (ExtendDisk h fuel disk size log).2
      = log ++ (⟨"hosting.disk.update", [Param.int diskid,
          Param.map [("size", Scalar.int
            (toInt64 (((disk.Size + size * 1024) % 2 ^ 64 : Nat) : Int)))]]⟩ : Call)
        :: rest := by
  unfold ExtendDisk
  simp only [hA, hne, if_false]
  split
  · exact ⟨[], by simp⟩
  · obtain ⟨rest, hr⟩ := waitForOp_log h
      (h.Send log ⟨"hosting.disk.update", [Param.int diskid,
          Param.map [("size", Scalar.int
            (toInt64 (((disk.Size + size * 1024) % 2 ^ 64 : Nat) : Int)))]]⟩).operation
      fuel (log ++ [⟨"hosting.disk.update", [Param.int diskid,
          Param.map [("size", Scalar.int
            (toInt64 (((disk.Size + size * 1024) % 2 ^ 64 : Nat) : Int)))]]⟩])
    split <;> rename_i heq <;> rw [heq] at hr <;> simp only at hr <;>
      simp only [diskFromID_log, hr, List.append_assoc, List.singleton_append,
        List.cons_append] <;> exact ⟨_, rfl⟩

/-- A filter that translates to the zero wire filter is listed with one
"hosting.disk.list" call without parameters. -/
theorem DescribeDisks_zero_filter (h : Hostingv4) (f : DiskFilter) (log : List Call)
    (hf : toDiskFilterv4 f = ({}, none)) :
    DescribeDisks h f log
      = (match (h.Send log ⟨"hosting.disk.list", []⟩).err with
          | some err => ([], some err)
          | none => ((h.Send log ⟨"hosting.disk.list", []⟩).disks.map fromDiskv4, none),
        log ++ [⟨"hosting.disk.list", []⟩]) := by
  unfold DescribeDisks
  simp only [hf]
  have hm : structToMap_diskFilterv4 {} = [] := by decide
  simp only [hm, List.length_nil, gt_iff_lt, lt_self_iff_false, if_false]
  split <;> rename_i heq <;> simp [heq]

/-! ## Region mismatch -/

/-- C3, the code at the input of TestDiskFunctionsBadID, DiskSpec{RegionID: "1"} with
DiskImage{DiskID: "666", RegionID: "badid"}: whatever the remote side does,
CreateDiskFromImage invokes Send, first with "hosting.disk.create_from", the map
{"datacenter_id": 1} and the image id 666; against a remote side that completes the
operation it returns the disk read back and a nil error, after three calls.  The test
expects ErrMismatch and no call. -/
theorem create_from_image_mismatch_is_sent (h : Hostingv4) (fuel : Nat) (log : List Call) :
    (∃ rest, (CreateDiskFromImage h fuel { RegionID := "1" }
        { DiskID := "666", RegionID := "badid" } log).2
      = log ++ (⟨"hosting.disk.create_from",
          [Param.map [("datacenter_id", Scalar.int 1)], Param.int 666]⟩ : Call) :: rest)
    ∧ CreateDiskFromImage (doneCaller { ID := 7, RegionID := 1 }) 1 { RegionID := "1" }
        { DiskID := "666", RegionID := "badid" } []
      = (some ({ ID := "7", RegionID := "1" }, none),
          [⟨"hosting.disk.create_from",
              [Param.map [("datacenter_id", Scalar.int 1)], Param.int 666]⟩,
            ⟨"operation.info", [Param.int 1]⟩,
            ⟨"hosting.disk.info", [Param.int 7]⟩]) := by
  constructor
  · have hm : structToMap_diskSpecv4 { RegionID := 1, Name := "", Size := toInt64 ((0 : Nat) : Int) }
        = [("datacenter_id", Scalar.int 1)] := by decide
    have key := CreateDiskFromImage_first_call h fuel { RegionID := "1" }
      { DiskID := "666", RegionID := "badid" } log 1 666 (by decide) (by decide) (by decide)
    rw [hm] at key
    exact key
  · decide

/-! ## Filters -/

/-- C4, the code at the inputs of TestFilterDisksBadID, TestFilterDisksBadRegionID and
TestFilterDisksBadVMID: a filter whose ID, RegionID or VMID is "ThisisnotAnID" is
translated without error to the zero wire filter, and DescribeDisks does what it does on
the empty filter: it invokes Send once, with "hosting.disk.list" and no parameter.  The
tests expect an error. -/
theorem filter_malformed_id_is_accepted (h : Hostingv4) (log : List Call) :
    toDiskFilterv4 { ID := "ThisisnotAnID" } = ({}, none)
    ∧ toDiskFilterv4 { RegionID := "ThisisnotAnID" } = ({}, none)
    ∧ toDiskFilterv4 { VMID := "ThisisnotAnID" } = ({}, none)
    ∧ DescribeDisks h { ID := "ThisisnotAnID" } log = DescribeDisks h {} log
    ∧ DescribeDisks h { RegionID := "ThisisnotAnID" } log = DescribeDisks h {} log
    ∧ DescribeDisks h { VMID := "ThisisnotAnID" } log = DescribeDisks h {} log
    ∧ (DescribeDisks h { ID := "ThisisnotAnID" } log).2
        = log ++ [⟨"hosting.disk.list", []⟩] := by
  have h0 : toDiskFilterv4 {} = ({}, none) := by decide
  have h1 : toDiskFilterv4 { ID := "ThisisnotAnID" } = ({}, none) := by decide
  have h2 : toDiskFilterv4 { RegionID := "ThisisnotAnID" } = ({}, none) := by decide
  have h3 : toDiskFilterv4 { VMID := "ThisisnotAnID" } = ({}, none) := by decide
  refine ⟨h1, h2, h3, ?_, ?_, ?_, ?_⟩
  · rw [DescribeDisks_zero_filter h _ log h1, DescribeDisks_zero_filter h _ log h0]
  · rw [DescribeDisks_zero_filter h _ log h2, DescribeDisks_zero_filter h _ log h0]
  · rw [DescribeDisks_zero_filter h _ log h3, DescribeDisks_zero_filter h _ log h0]
  · rw [DescribeDisks_zero_filter h _ log h1]

/-! ## Sizes -/

/-- C5, the code at the input of TestExtendDisk, Disk{ID: "1", Size: 10} extended by 5:
whatever the remote side does, ExtendDisk invokes Send, first with "hosting.disk.update",
the id 1 and the map {"size": 5130}, that is 10 + 5 * 1024; the test expects 15360, that
is 10 * 1024 + 5 * 1024. -/
theorem extend_disk_sends_unconverted_size (h : Hostingv4) (fuel : Nat) (log : List Call) :
    ∃ rest, (ExtendDisk h fuel { ID := "1", Size := 10 } 5 log).2
      = log ++ (⟨"hosting.disk.update",
          [Param.int 1, Param.map [("size", Scalar.int 5130)]]⟩ : Call) :: rest := by
  have hs : toInt64 (((10 + 5 * 1024) % 2 ^ 64 : Nat) : Int) = 5130 := by
    norm_num [toInt64]
  have key := ExtendDisk_first_call h fuel { ID := "1", Size := 10 } 5 log 1
    (by decide) (by decide)
  simp only [hs] at key
  exact key

/-- C6, the code at the input of TestCreateDiskWithNameSizeAndRegion,
DiskSpec{RegionID: "4", Name: "Disk1", Size: 20}: toDiskSpecv4 keeps the size 20, and
whatever the remote side does CreateDisk invokes Send, first with "hosting.disk.create"
and the map {"datacenter_id": 4, "name": "Disk1", "size": 20}; the test expects the size
20480. -/
theorem create_disk_sends_unconverted_size (h : Hostingv4) (fuel : Nat) (log : List Call) :
    toDiskSpecv4 { RegionID := "4", Name := "Disk1", Size := 20 }
      = ({ RegionID := 4, Name := "Disk1", Size := 20 }, none)
    ∧ ∃ rest, (CreateDisk h fuel { RegionID := "4", Name := "Disk1", Size := 20 } log).2
      = log ++ (⟨"hosting.disk.create", [Param.map [("datacenter_id", Scalar.int 4),
          ("name", Scalar.str "Disk1"), ("size", Scalar.int 20)]]⟩ : Call) :: rest := by
  have hs : toInt64 ((20 : Nat) : Int) = 20 := by norm_num [toInt64]
  constructor
  · simp only [toDiskSpecv4, hs, show Atoi "4" = (4, none) from by decide]
  · have key := CreateDisk_first_call h fuel { RegionID := "4", Name := "Disk1", Size := 20 }
      log 4 (by decide)
    simp only [hs] at key
    have hm : structToMap_diskSpecv4 { RegionID := 4, Name := "Disk1", Size := 20 }
        = [("datacenter_id", Scalar.int 4), ("name", Scalar.str "Disk1"),
            ("size", Scalar.int 20)] := by decide
    rw [hm] at key
    exact key

/-- C7, the code at the wire disks of the tests: fromDiskv4 returns the wire size as it
is, 20480 for 20480, 3072 for 3072 and 15360 for 15360, where the tests expect 20, 3 and
15; the wire disk of TestCreateDiskWithNameSizeAndRegion becomes a Disk of size 20480. -/
theorem from_disk_keeps_wire_size :
    (fromDiskv4 { Size := 20480 }).Size = 20480
    ∧ (fromDiskv4 { Size := 3072 }).Size = 3072
    ∧ (fromDiskv4 { Size := 15360 }).Size = 15360
    ∧ fromDiskv4
        { ID := 1, Name := "Disk1", Size := 20480, RegionID := 4,
          State := "created", Typ := "data", VM := [], BootDisk := false }
      = { ID := "1", Name := "Disk1", Size := 20480, RegionID := "4",
          State := "created", Typ := "data", VM := [], BootDisk := false } := by
  refine ⟨?_, ?_, ?_, ?_⟩
  · decide
  · decide
  · decide
  · decide

/-- C8, the code at the input of TestListDiskWithNameInFilter, DiskFilter{Name: "Disk1"}:
toDiskFilterv4 does not copy the name, the wire filter is the zero filter (its Name is
empty), and DescribeDisks does what it does on the empty filter: it invokes Send once,
with "hosting.disk.list" and no parameter.  The test expects the parameter
{"name": "Disk1"}. -/
theorem filter_name_is_dropped (h : Hostingv4) (log : List Call) :
    toDiskFilterv4 { Name := "Disk1" } = ({}, none)
    ∧ (toDiskFilterv4 { Name := "Disk1" }).1.Name = ""
    ∧ DescribeDisks h { Name := "Disk1" } log = DescribeDisks h {} log
    ∧ (DescribeDisks h { Name := "Disk1" } log).2 = log ++ [⟨"hosting.disk.list", []⟩] := by
  have h0 : toDiskFilterv4 {} = ({}, none) := by decide
  have h1 : toDiskFilterv4 { Name := "Disk1" } = ({}, none) := by decide
  refine ⟨h1, by decide, ?_, ?_⟩
  · rw [DescribeDisks_zero_filter h _ log h1, DescribeDisks_zero_filter h _ log h0]
  · rw [DescribeDisks_zero_filter h _ log h1]

/-- C9: the DiskFilter with every field empty is translated without error to the
all-zero wire filter, whose sparse map is empty; DescribeDisks on it, and so ListDisks,
invokes Send exactly once, with "hosting.disk.list" and an empty parameter list. -/
theorem empty_filter_lists_without_parameter (h : Hostingv4) (log : List Call) :
    toDiskFilterv4 {} = ({ ID := 0, RegionID := 0, Name := "", VMID := 0 }, none)
    ∧ structToMap_diskFilterv4 (toDiskFilterv4 {}).1 = []
    ∧ (DescribeDisks h {} log).2 = log ++ [⟨"hosting.disk.list", []⟩]
    ∧ (ListDisks h log).2 = log ++ [⟨"hosting.disk.list", []⟩] := by
  have h0 : toDiskFilterv4 {} = ({}, none) := by decide
  refine ⟨by decide, by decide, ?_, ?_⟩
  · rw [DescribeDisks_zero_filter h _ log h0]
  · unfold ListDisks
    rw [DescribeDisks_zero_filter h _ log h0]

/-- C10: if toDiskFilterv4 returns an error, the error names one of RegionID, ID and
VMID, and the field it names is non-empty and rejected by strconv.Atoi (so an empty field
is never the cause of a failure); and a filter whose RegionID, ID and VMID are all empty
is translated without error, whatever its Name. -/
theorem filter_error_only_on_nonempty_field (f g : DiskFilter)
    (herr : (toDiskFilterv4 f).2 ≠ none)
    (hR : g.RegionID = "") (hI : g.ID = "") (hV : g.VMID = "") :
    (((toDiskFilterv4 f).2 = some (internalParseError "DiskFilter" "RegionID")
        ∧ f.RegionID ≠ "" ∧ (Atoi f.RegionID).2 ≠ none)
      ∨ ((toDiskFilterv4 f).2 = some (internalParseError "DiskFilter" "ID")
        ∧ f.ID ≠ "" ∧ (Atoi f.ID).2 ≠ none)
      ∨ ((toDiskFilterv4 f).2 = some (internalParseError "DiskFilter" "VMID")
        ∧ f.VMID ≠ "" ∧ (Atoi f.VMID).2 ≠ none))
    ∧ (toDiskFilterv4 g).2 = none := by
  have hempty : Atoi "" = (0, some NumErr.ErrSyntax) := by decide
  constructor
  · rcases hfR : Atoi f.RegionID with ⟨r, _ | eR⟩
    · rcases hfI : Atoi f.ID with ⟨i, _ | eI⟩
      · rcases hfV : Atoi f.VMID with ⟨v, _ | eV⟩
        · simp [toDiskFilterv4, hfR, hfI, hfV, isIgnorableErr] at herr
        · cases eV
          · simp [toDiskFilterv4, hfR, hfI, hfV, isIgnorableErr] at herr
          · refine Or.inr (Or.inr ⟨by simp [toDiskFilterv4, hfR, hfI, hfV, isIgnorableErr],
              ?_, by simp⟩)
            intro he
            rw [he, hempty] at hfV
            simp at hfV
      · cases eI
        · rcases hfV : Atoi f.VMID with ⟨v, _ | eV⟩
          · simp [toDiskFilterv4, hfR, hfI, hfV, isIgnorableErr] at herr
          · cases eV
            · simp [toDiskFilterv4, hfR, hfI, hfV, isIgnorableErr] at herr
            · refine Or.inr (Or.inr ⟨by simp [toDiskFilterv4, hfR, hfI, hfV, isIgnorableErr],
                ?_, by simp⟩)
              intro he
              rw [he, hempty] at hfV
              simp at hfV
        · refine Or.inr (Or.inl ⟨by simp [toDiskFilterv4, hfR, hfI, isIgnorableErr],
            ?_, by simp⟩)
          intro he
          rw [he, hempty] at hfI
          simp at hfI
    · cases eR
      · rcases hfI : Atoi f.ID with ⟨i, _ | eI⟩
        · rcases hfV : Atoi f.VMID with ⟨v, _ | eV⟩
          · simp [toDiskFilterv4, hfR, hfI, hfV, isIgnorableErr] at herr
          · cases eV
            · simp [toDiskFilterv4, hfR, hfI, hfV, isIgnorableErr] at herr
            · refine Or.inr (Or.inr ⟨by simp [toDiskFilterv4, hfR, hfI, hfV, isIgnorableErr],
                ?_, by simp⟩)
              intro he
              rw [he, hempty] at hfV
              simp at hfV
        · cases eI
          · rcases hfV : Atoi f.VMID with ⟨v, _ | eV⟩
            · simp [toDiskFilterv4, hfR, hfI, hfV, isIgnorableErr] at herr
            · cases eV
              · simp [toDiskFilterv4, hfR, hfI, hfV, isIgnorableErr] at herr
              · refine Or.inr (Or.inr
                  ⟨by simp [toDiskFilterv4, hfR, hfI, hfV, isIgnorableErr], ?_, by simp⟩)
                intro he
                rw [he, hempty] at hfV
                simp at hfV
          · refine Or.inr (Or.inl ⟨by simp [toDiskFilterv4, hfR, hfI, isIgnorableErr],
              ?_, by simp⟩)
            intro he
            rw [he, hempty] at hfI
            simp at hfI
      · refine Or.inl ⟨by simp [toDiskFilterv4, hfR, isIgnorableErr], ?_, by simp⟩
        intro he
        rw [he, hempty] at hfR
        simp at hfR
  · simp [toDiskFilterv4, hR, hI, hV, hempty, isIgnorableErr]

/-- C10 at a filter whose ID is out of the range of int, and at the filter
DiskFilter{Name: "Disk1"}. -/
theorem filter_error_only_on_nonempty_field_witness :
    ((toDiskFilterv4 { ID := "18446744073709551616" }).2 ≠ none
      ∧ ({ Name := "Disk1" } : DiskFilter).RegionID = ""
      ∧ ({ Name := "Disk1" } : DiskFilter).ID = ""
      ∧ ({ Name := "Disk1" } : DiskFilter).VMID = "")
    ∧ ((((toDiskFilterv4 { ID := "18446744073709551616" }).2
            = some (internalParseError "DiskFilter" "RegionID")
          ∧ ({ ID := "18446744073709551616" } : DiskFilter).RegionID ≠ ""
          ∧ (Atoi ({ ID := "18446744073709551616" } : DiskFilter).RegionID).2 ≠ none)
        ∨ ((toDiskFilterv4 { ID := "18446744073709551616" }).2
            = some (internalParseError "DiskFilter" "ID")
          ∧ ({ ID := "18446744073709551616" } : DiskFilter).ID ≠ ""
          ∧ (Atoi ({ ID := "18446744073709551616" } : DiskFilter).ID).2 ≠ none)
        ∨ ((toDiskFilterv4 { ID := "18446744073709551616" }).2
            = some (internalParseError "DiskFilter" "VMID")
          ∧ ({ ID := "18446744073709551616" } : DiskFilter).VMID ≠ ""
          ∧ (Atoi ({ ID := "18446744073709551616" } : DiskFilter).VMID).2 ≠ none))
      ∧ (toDiskFilterv4 { Name := "Disk1" }).2 = none) :=
  ⟨⟨by decide, rfl, rfl, rfl⟩,
    filter_error_only_on_nonempty_field { ID := "18446744073709551616" } { Name := "Disk1" }
      (by decide) rfl rfl rfl⟩

/-! ## The course of a mutating operation -/

/-- While waiting for an operation, every call made is the poll of that operation. -/
theorem waitForOp_polls (h : Hostingv4) (op : Operation) (fuel : Nat) :
    ∀ log : List Call, ∃ n, n ≤ fuel ∧
      (waitForOp h op fuel log).2 = log ++ List.replicate n (pollCall op) := by
  induction fuel with
  | zero => intro log; exact ⟨0, le_refl _, by simp [waitForOp]⟩
  | succ k ih =>
    intro log
    unfold waitForOp
    simp only
    split
    · exact ⟨1, by omega, rfl⟩
    · split
      · exact ⟨1, by omega, rfl⟩
      · split
        · exact ⟨1, by omega, rfl⟩
        · obtain ⟨n, hn, hrest⟩ := ih (log ++ [⟨"operation.info", [Param.int op.ID]⟩])
          refine ⟨n + 1, by omega, ?_⟩
          rw [hrest, List.replicate_succ]
          simp [pollCall]

/-- CreateDisk on a DiskSpec whose RegionID parses is `mutateDisk` on its call. -/
theorem CreateDisk_eq_mutateDisk (h : Hostingv4) (fuel : Nat) (newDisk : DiskSpec)
    (log : List Call) (hA : (Atoi newDisk.RegionID).2 = none) :
    CreateDisk h fuel newDisk log = mutateDisk h fuel (createCall newDisk) log := by
  rcases hR : Atoi newDisk.RegionID with ⟨r, _ | e⟩
  swap
  · rw [hR] at hA; cases hA
  simp only [CreateDisk, mutateDisk, createCall, toDiskSpecv4, hR]

/-- CreateDiskFromImage on valid inputs is `mutateDisk` on its call. -/
theorem CreateDiskFromImage_eq_mutateDisk (h : Hostingv4) (fuel : Nat) (newDisk : DiskSpec)
    (srcDisk : DiskImage) (log : List Call) (hne : srcDisk.DiskID ≠ "")
    (hA : (Atoi newDisk.RegionID).2 = none) (hI : (Atoi srcDisk.DiskID).2 = none) :
    CreateDiskFromImage h fuel newDisk srcDisk log
      = mutateDisk h fuel (createFromCall newDisk srcDisk) log := by
  rcases hR : Atoi newDisk.RegionID with ⟨r, _ | e⟩
  swap
  · rw [hR] at hA; cases hA
  rcases hD : Atoi srcDisk.DiskID with ⟨i, _ | e⟩
  swap
  · rw [hD] at hI; cases hI
  simp only [CreateDiskFromImage, mutateDisk, createFromCall, toDiskSpecv4, hR, hD, hne,
    if_false]

/-- ExtendDisk on a Disk whose ID parses is `mutateDisk` on its call. -/
theorem ExtendDisk_eq_mutateDisk (h : Hostingv4) (fuel : Nat) (disk : Disk) (size : Nat)
    (log : List Call) (hne : disk.ID ≠ "") (hA : (Atoi disk.ID).2 = none) :
    ExtendDisk h fuel disk size log = mutateDisk h fuel (extendCall disk size) log := by
  rcases hD : Atoi disk.ID with ⟨i, _ | e⟩
  swap
  · rw [hD] at hA; cases hA
  simp only [ExtendDisk, mutateDisk, extendCall, hD, hne, if_false]

/-- RenameDisk on a Disk whose ID parses is `mutateDisk` on its call. -/
theorem RenameDisk_eq_mutateDisk (h : Hostingv4) (fuel : Nat) (disk : Disk)
    (newName : String) (log : List Call) (hne : disk.ID ≠ "")
    (hA : (Atoi disk.ID).2 = none) :
    RenameDisk h fuel disk newName log = mutateDisk h fuel (renameCall disk newName) log := by
  rcases hD : Atoi disk.ID with ⟨i, _ | e⟩
  swap
  · rw [hD] at hA; cases hA
  simp only [RenameDisk, mutateDisk, renameCall, hD, hne, if_false]

/-- If the mutating call fails, its error is returned at once. -/
theorem mutateDisk_send_error (h : Hostingv4) (fuel : Nat) (c : Call) (log : List Call)
    (e : GoError) (hs : (h.Send log c).err = some e) :
    mutateDisk h fuel c log = (some ({}, some e), log ++ [c]) := by
  simp only [mutateDisk, hs]

/-- If the wait fails, its error is returned and nothing more is called. -/
theorem mutateDisk_wait_error (h : Hostingv4) (fuel : Nat) (c : Call) (log l1 : List Call)
    (e : GoError) (hs : (h.Send log c).err = none)
    (hw : waitForOp h (h.Send log c).operation fuel (log ++ [c]) = (some (some e), l1)) :
    mutateDisk h fuel c log = (some ({}, some e), l1) := by
  simp only [mutateDisk, hs, hw]

/-- If the call and the wait succeed, the disk named by the operation handle is read
back once and returned. -/
theorem mutateDisk_done (h : Hostingv4) (fuel : Nat) (c : Call) (log l1 : List Call)
    (hs : (h.Send log c).err = none)
    (hw : waitForOp h (h.Send log c).operation fuel (log ++ [c]) = (some none, l1)) :
    mutateDisk h fuel c log
      = (some (match (h.Send l1 (infoCall (h.Send log c).operation.DiskID)).err with
          | some e => ({}, some e)
          | none =>
            (fromDiskv4 (h.Send l1 (infoCall (h.Send log c).operation.DiskID)).disk, none)),
        l1 ++ [infoCall (h.Send log c).operation.DiskID]) := by
  simp only [mutateDisk, hs, hw, diskFromID, infoCall]
  split <;> rename_i heq <;> simp [heq]

/-- A nil error is returned only after a successful call and a successful wait. -/
theorem mutateDisk_success (h : Hostingv4) (fuel : Nat) (c : Call) (log l2 : List Call)
    (d : Disk) (hr : mutateDisk h fuel c log = (some (d, none), l2)) :
    (h.Send log c).err = none
      ∧ ∃ l1, waitForOp h (h.Send log c).operation fuel (log ++ [c]) = (some none, l1) := by
  unfold mutateDisk at hr
  simp only at hr
  split at hr
  · simp at hr
  · rename_i hs
    refine ⟨hs, ?_⟩
    split at hr
    · simp at hr
    · simp at hr
    · rename_i l1 hw
      exact ⟨l1, hw⟩

/-- The calls of a successful wait that follows the call `c`. -/
theorem wait_after_call (h : Hostingv4) (op : Operation) (fuel : Nat) (log l1 : List Call)
    (c : Call) (r : Option (Option GoError))
    (hw : waitForOp h op fuel (log ++ [c]) = (r, l1)) :
    ∃ n, l1 = log ++ c :: List.replicate n (pollCall op) := by
  obtain ⟨n, _, hn⟩ := waitForOp_polls h op fuel (log ++ [c])
  rw [hw] at hn
  exact ⟨n, by simpa using hn⟩

/-- `mutateDisk` returns errors unchanged. -/
theorem mutateDisk_returns_errors (h : Hostingv4) (fuel : Nat) (log : List Call) (c : Call) :
    ReturnsErrorsUnchanged h fuel log c (mutateDisk h fuel c log) := by
  refine ⟨fun e hs => mutateDisk_send_error h fuel c log e hs, ?_, ?_⟩
  · intro e l1 hs hw
    exact ⟨mutateDisk_wait_error h fuel c log l1 e hs hw,
      wait_after_call h _ fuel log l1 c _ hw⟩
  · intro d l2 hr
    exact mutateDisk_success h fuel c log l2 d hr

/-- `mutateDisk` reads the disk back once, provided `c` is not itself a read. -/
theorem mutateDisk_reads_back (h : Hostingv4) (fuel : Nat) (log : List Call) (c : Call)
    (hc : c.method ≠ "hosting.disk.info") :
    ReadsBackOnce h fuel log c (mutateDisk h fuel c log) := by
  intro l1 hs hw
  have hrun := mutateDisk_done h fuel c log l1 hs hw
  obtain ⟨n, hn⟩ := wait_after_call h _ fuel log l1 c _ hw
  refine ⟨⟨n, hn⟩, by rw [hrun], ?_, ?_, ?_⟩
  · rw [hrun]
    simp only
    rw [hn, List.append_assoc, List.drop_left]
    simp [List.filter_cons, hc, infoCall, pollCall, List.filter_append, List.filter_replicate]
  · intro e he
    rw [hrun]
    simp only [he]
  · intro he
    rw [hrun]
    simp only [he]

/-- C11: for CreateDisk, CreateDiskFromImage, ExtendDisk, RenameDisk and DeleteDisk on
inputs that pass validation: if the mutating Send returns an error, the operation returns
that error (with the zero Disk), having made this one call only, so no poll and no
"hosting.disk.info" read; if the call is accepted and waitForOp returns an error, the
operation returns that error (with the zero Disk), the calls being the mutating call and
the polls of waitForOp, so no "hosting.disk.info" read; and a nil error is returned only
if waitForOp returned nil (DeleteDisk returns what waitForOp returns). -/
theorem mutation_errors_are_returned (h : Hostingv4) (fuel : Nat) (log : List Call)
    (newDisk : DiskSpec) (srcDisk : DiskImage) (disk : Disk) (size : Nat) (newName : String)
    (hregion : (Atoi newDisk.RegionID).2 = none)
    (himg : srcDisk.DiskID ≠ "") (himgid : (Atoi srcDisk.DiskID).2 = none)
    (hne : disk.ID ≠ "") (hid : (Atoi disk.ID).2 = none) :
    ReturnsErrorsUnchanged h fuel log (createCall newDisk) (CreateDisk h fuel newDisk log)
    ∧ ReturnsErrorsUnchanged h fuel log (createFromCall newDisk srcDisk)
        (CreateDiskFromImage h fuel newDisk srcDisk log)
    ∧ ReturnsErrorsUnchanged h fuel log (extendCall disk size)
        (ExtendDisk h fuel disk size log)
    ∧ ReturnsErrorsUnchanged h fuel log (renameCall disk newName)
        (RenameDisk h fuel disk newName log)
    ∧ (∀ e, (h.Send log (deleteCall disk)).err = some e →
        DeleteDisk h fuel disk log = (some (some e), log ++ [deleteCall disk]))
    ∧ ((h.Send log (deleteCall disk)).err = none →
        DeleteDisk h fuel disk log
            = waitForOp h (h.Send log (deleteCall disk)).operation fuel
                (log ++ [deleteCall disk])
          ∧ ∃ n, (DeleteDisk h fuel disk log).2
            = log ++ deleteCall disk
                :: List.replicate n (pollCall (h.Send log (deleteCall disk)).operation)) := by
  refine ⟨?_, ?_, ?_, ?_, ?_, ?_⟩
  · rw [CreateDisk_eq_mutateDisk h fuel newDisk log hregion]
    exact mutateDisk_returns_errors h fuel log _
  · rw [CreateDiskFromImage_eq_mutateDisk h fuel newDisk srcDisk log himg hregion himgid]
    exact mutateDisk_returns_errors h fuel log _
  · rw [ExtendDisk_eq_mutateDisk h fuel disk size log hne hid]
    exact mutateDisk_returns_errors h fuel log _
  · rw [RenameDisk_eq_mutateDisk h fuel disk newName log hne hid]
    exact mutateDisk_returns_errors h fuel log _
  · intro e hs
    rcases hD : Atoi disk.ID with ⟨i, _ | e2⟩
    swap
    · rw [hD] at hid; cases hid
    simp only [deleteCall, hD] at hs
    simp only [DeleteDisk, deleteCall, hD, hne, if_false, hs]
  · intro hs
    rcases hD : Atoi disk.ID with ⟨i, _ | e2⟩
    swap
    · rw [hD] at hid; cases hid
    simp only [deleteCall, hD] at hs
    have hrun : DeleteDisk h fuel disk log
        = waitForOp h (h.Send log (deleteCall disk)).operation fuel
            (log ++ [deleteCall disk]) := by
      simp only [DeleteDisk, deleteCall, hD, hne, if_false, hs]
    refine ⟨hrun, ?_⟩
    rw [hrun]
    exact wait_after_call h _ fuel log _ _ _ rfl

/-- C11 at Disk{ID: "1"}, DiskSpec{RegionID: "4"} and DiskImage{DiskID: "666"}: on a
remote side where every call fails, CreateDisk and DeleteDisk return that error after
their one call; on a remote side that reports the operation as failed, RenameDisk and
DeleteDisk return the error of the wait after the call and one poll. -/
theorem mutation_errors_are_returned_witness :
    ((Atoi ({ RegionID := "4" } : DiskSpec).RegionID).2 = none
      ∧ ({ DiskID := "666" } : DiskImage).DiskID ≠ ""
      ∧ (Atoi ({ DiskID := "666" } : DiskImage).DiskID).2 = none
      ∧ ({ ID := "1" } : Disk).ID ≠ ""
      ∧ (Atoi ({ ID := "1" } : Disk).ID).2 = none)
    ∧ CreateDisk (failCaller (GoError.remote "down")) 2 { RegionID := "4" } []
        = (some ({}, some (GoError.remote "down")),
            [⟨"hosting.disk.create", [Param.map [("datacenter_id", Scalar.int 4)]]⟩])
    ∧ DeleteDisk (failCaller (GoError.remote "down")) 2 { ID := "1" } []
        = (some (some (GoError.remote "down")), [⟨"hosting.disk.delete", [Param.int 1]⟩])
    ∧ RenameDisk errorStatusCaller 2 { ID := "1" } "n" []
        = (some ({}, some (GoError.operationFailed 1 "ERROR")),
            [⟨"hosting.disk.update", [Param.int 1, Param.map [("name", Scalar.str "n")]]⟩,
              ⟨"operation.info", [Param.int 1]⟩])
    ∧ DeleteDisk errorStatusCaller 2 { ID := "1" } []
        = (some (some (GoError.operationFailed 1 "ERROR")),
            [⟨"hosting.disk.delete", [Param.int 1]⟩, ⟨"operation.info", [Param.int 1]⟩]) := by
  have hF := mutation_errors_are_returned (failCaller (GoError.remote "down")) 2 []
    { RegionID := "4" } { DiskID := "666" } { ID := "1" } 5 "n"
    (by decide) (by decide) (by decide) (by decide) (by decide)
  have hW := mutation_errors_are_returned errorStatusCaller 2 []
    { RegionID := "4" } { DiskID := "666" } { ID := "1" } 5 "n"
    (by decide) (by decide) (by decide) (by decide) (by decide)
  obtain ⟨⟨c1, -, -⟩, -, -, -, d1, -⟩ := hF
  obtain ⟨-, -, -, ⟨-, r2, -⟩, -, d2⟩ := hW
  refine ⟨by decide, ?_, ?_, ?_, ?_⟩
  · exact c1 (GoError.remote "down") rfl
  · exact d1 (GoError.remote "down") rfl
  · exact (r2 (GoError.operationFailed 1 "ERROR")
      [⟨"hosting.disk.update", [Param.int 1, Param.map [("name", Scalar.str "n")]]⟩,
        ⟨"operation.info", [Param.int 1]⟩] (by decide) (by decide)).1
  · exact ((d2 (by decide)).1).trans (by decide)

/-- C12: for CreateDisk, CreateDiskFromImage, ExtendDisk and RenameDisk on valid inputs,
when the mutating call and waitForOp both succeed, the calls made are the mutating call,
the polls of waitForOp and exactly one "hosting.disk.info" call, whose single parameter is
the DiskID of the operation handle; the result is fromDiskv4 of the response of that read
with a nil error, or the zero Disk with the error of the read if it fails.  DeleteDisk in
the same situation returns nil and makes no call after the polls. -/
theorem success_reads_disk_back_once (h : Hostingv4) (fuel : Nat) (log : List Call)
    (newDisk : DiskSpec) (srcDisk : DiskImage) (disk : Disk) (size : Nat) (newName : String)
    (hregion : (Atoi newDisk.RegionID).2 = none)
    (himg : srcDisk.DiskID ≠ "") (himgid : (Atoi srcDisk.DiskID).2 = none)
    (hne : disk.ID ≠ "") (hid : (Atoi disk.ID).2 = none) :
    ReadsBackOnce h fuel log (createCall newDisk) (CreateDisk h fuel newDisk log)
    ∧ ReadsBackOnce h fuel log (createFromCall newDisk srcDisk)
        (CreateDiskFromImage h fuel newDisk srcDisk log)
    ∧ ReadsBackOnce h fuel log (extendCall disk size) (ExtendDisk h fuel disk size log)
    ∧ ReadsBackOnce h fuel log (renameCall disk newName) (RenameDisk h fuel disk newName log)
    ∧ (∀ l1, (h.Send log (deleteCall disk)).err = none →
        waitForOp h (h.Send log (deleteCall disk)).operation fuel (log ++ [deleteCall disk])
          = (some none, l1) →
        DeleteDisk h fuel disk log = (some none, l1)
          ∧ ∃ n, l1 = log ++ deleteCall disk
              :: List.replicate n (pollCall (h.Send log (deleteCall disk)).operation)) := by
  refine ⟨?_, ?_, ?_, ?_, ?_⟩
  · rw [CreateDisk_eq_mutateDisk h fuel newDisk log hregion]
    exact mutateDisk_reads_back h fuel log _ (by simp [createCall])
  · rw [CreateDiskFromImage_eq_mutateDisk h fuel newDisk srcDisk log himg hregion himgid]
    exact mutateDisk_reads_back h fuel log _ (by simp [createFromCall])
  · rw [ExtendDisk_eq_mutateDisk h fuel disk size log hne hid]
    exact mutateDisk_reads_back h fuel log _ (by simp [extendCall])
  · rw [RenameDisk_eq_mutateDisk h fuel disk newName log hne hid]
    exact mutateDisk_reads_back h fuel log _ (by simp [renameCall])
  · intro l1 hs hw
    rcases hD : Atoi disk.ID with ⟨i, _ | e2⟩
    swap
    · rw [hD] at hid; cases hid
    refine ⟨?_, wait_after_call h _ fuel log l1 _ _ hw⟩
    rw [← hw]
    simp only [deleteCall, hD] at hs
    simp only [DeleteDisk, deleteCall, hD, hne, if_false, hs]

/-- C12 at the inputs of TestRenameDisk and TestDeleteDisk, against a remote side that
completes every operation and answers the read with the renamed wire disk: RenameDisk
makes the update call, one poll and one read of the disk named by the operation handle,
and returns that disk; DeleteDisk makes the delete call and one poll, and returns nil. -/
theorem success_reads_disk_back_once_witness :
    ((Atoi ({ RegionID := "4" } : DiskSpec).RegionID).2 = none
      ∧ ({ DiskID := "100" } : DiskImage).DiskID ≠ ""
      ∧ (Atoi ({ DiskID := "100" } : DiskImage).DiskID).2 = none
      ∧ ({ ID := "1" } : Disk).ID ≠ ""
      ∧ (Atoi ({ ID := "1" } : Disk).ID).2 = none)
    ∧ (RenameDisk (doneCaller { ID := 1, Name := "Disk_renamed" }) 2 { ID := "1" }
          "Disk_renamed" []).2
        = [⟨"hosting.disk.update",
              [Param.int 1, Param.map [("name", Scalar.str "Disk_renamed")]]⟩,
            ⟨"operation.info", [Param.int 1]⟩,
            ⟨"hosting.disk.info", [Param.int 1]⟩]
    ∧ (RenameDisk (doneCaller { ID := 1, Name := "Disk_renamed" }) 2 { ID := "1" }
          "Disk_renamed" []).1
        = some ({ ID := "1", Name := "Disk_renamed", RegionID := "0" }, none)
    ∧ DeleteDisk (doneCaller { ID := 1, Name := "Disk_renamed" }) 2 { ID := "1" } []
        = (some none, [⟨"hosting.disk.delete", [Param.int 1]⟩,
            ⟨"operation.info", [Param.int 1]⟩]) := by
  have hD := success_reads_disk_back_once (doneCaller { ID := 1, Name := "Disk_renamed" }) 2
    [] { RegionID := "4" } { DiskID := "100" } { ID := "1" } 5 "Disk_renamed"
    (by decide) (by decide) (by decide) (by decide) (by decide)
  obtain ⟨-, -, -, r, d⟩ := hD
  obtain ⟨-, r2, -, -, r5⟩ := r
    [⟨"hosting.disk.update", [Param.int 1, Param.map [("name", Scalar.str "Disk_renamed")]]⟩,
      ⟨"operation.info", [Param.int 1]⟩] (by decide) (by decide)
  refine ⟨by decide, ?_, ?_, ?_⟩
  · exact r2.trans (by decide)
  · exact (r5 (by decide)).trans (by decide)
  · exact (d _ (by decide) (by decide)).1

/-! ## `Atoi` after `Itoa` -/

/-- The character of a decimal digit is a digit, and its value is read back. -/
theorem digitChar_digit (k : Nat) (hk : k < 10) :
    (Nat.digitChar k).isDigit = true ∧ (Nat.digitChar k).toNat - 48 = k := by
  interval_cases k <;> decide

/-- One step of the digit loop on the character of a digit. -/
theorem parseUintLoop_digit (k acc : Nat) (cs : List Char) (hk : k < 10)
    (hle : acc * 10 + k ≤ maxUint64) :
    parseUintLoop (Nat.digitChar k :: cs) acc = parseUintLoop cs (acc * 10 + k) := by
  obtain ⟨hd, hv⟩ := digitChar_digit k hk
  have h1 : ¬ acc ≥ maxUint64 / 10 + 1 := by
    unfold maxUint64 at hle ⊢
    omega
  have h2 : ¬ acc * 10 + k > maxUint64 := by omega
  simp only [parseUintLoop, hd, hv, if_true, h1, h2, if_false]

/-- The digit loop reads the digits written by `Nat.toDigitsCore` back. -/
theorem parseUintLoop_toDigitsCore (fuel : Nat) :
    ∀ (n : Nat) (ds : List Char), n < fuel → n ≤ maxUint64 →
      parseUintLoop (Nat.toDigitsCore 10 fuel n ds) 0 = parseUintLoop ds n := by
  induction fuel with
  | zero => intro n ds hn; omega
  | succ f ih =>
    intro n ds hn hmax
    unfold Nat.toDigitsCore
    simp only
    split
    · rename_i hz
      have hlt : n < 10 := by omega
      rw [Nat.mod_eq_of_lt hlt, parseUintLoop_digit n 0 ds hlt (by omega)]
      simp
    · rename_i hz
      rw [ih (n / 10) _ (by omega) (by omega),
        parseUintLoop_digit (n % 10) (n / 10) ds (Nat.mod_lt _ (by decide)) (by omega)]
      congr 1
      omega

/-- Every character written by `Nat.toDigitsCore` in base 10 is a digit. -/
theorem toDigitsCore_digits (fuel : Nat) :
    ∀ (n : Nat) (ds : List Char), (∀ c ∈ ds, c.isDigit = true) →
      ∀ c ∈ Nat.toDigitsCore 10 fuel n ds, c.isDigit = true := by
  induction fuel with
  | zero => intro n ds hds c hc; exact hds c (by simpa [Nat.toDigitsCore] using hc)
  | succ f ih =>
    intro n ds hds c hc
    unfold Nat.toDigitsCore at hc
    simp only at hc
    have hd : ∀ c ∈ Nat.digitChar (n % 10) :: ds, c.isDigit = true := by
      intro c hc
      rcases List.mem_cons.mp hc with rfl | hc
      · exact (digitChar_digit _ (Nat.mod_lt _ (by decide))).1
      · exact hds c hc
    split at hc
    · exact hd c hc
    · exact ih _ _ hd c hc

/-- The decimal digits of a number: a digit followed by digits. -/
theorem toDigits_cons (n : Nat) :
    ∃ c cs, Nat.toDigits 10 n = c :: cs ∧ c.isDigit = true := by
  have hall := toDigitsCore_digits (n + 1) n [] (by simp)
  have hlen : 0 < (Nat.toDigits 10 n).length := by
    unfold Nat.toDigits Nat.toDigitsCore
    simp only
    split
    · simp
    · rw [Nat.toDigitsCore_lens_eq]
      omega
  cases hds : Nat.toDigits 10 n with
  | nil => rw [hds] at hlen; simp at hlen
  | cons c cs =>
    refine ⟨c, cs, rfl, hall c ?_⟩
    show c ∈ Nat.toDigits 10 n
    rw [hds]
    exact List.mem_cons_self c cs

/-- `ParseUint` reads the decimal digits of a `uint64` back. -/
theorem parseUint_toDigits (n : Nat) (hn : n ≤ maxUint64) :
    parseUint (Nat.toDigits 10 n) = (n, none) := by
  obtain ⟨c, cs, hcs, _⟩ := toDigits_cons n
  have hloop := parseUintLoop_toDigitsCore (n + 1) n [] (by omega) hn
  have hp : parseUint (Nat.toDigits 10 n) = parseUintLoop (Nat.toDigits 10 n) 0 := by
    rw [hcs]; rfl
  rw [hp]
  exact hloop

/-- `Atoi` reads back what `Itoa` writes, for every value of `int`. -/
theorem Atoi_Itoa (n : Int) (hlo : minInt64 ≤ n) (hhi : n ≤ maxInt64) :
    Atoi (Itoa n) = (n, none) := by
  unfold minInt64 at hlo
  unfold maxInt64 at hhi
  unfold Atoi Itoa
  by_cases hneg : n < 0
  · have hu : parseUint (Nat.toDigits 10 n.natAbs) = (n.natAbs, none) :=
      parseUint_toDigits _ (by unfold maxUint64; omega)
    have hb : ¬ n.natAbs > 2 ^ 63 := by omega
    simp only [hneg, if_true, parseInt, parseSigned, hu, Bool.not_true, Bool.false_and,
      Bool.true_and, decide_eq_true_eq, hb, if_false]
    simp only [Bool.false_eq_true, if_false, Prod.mk.injEq, and_true]
    omega
  · obtain ⟨c, cs, hcs, hc⟩ := toDigits_cons n.toNat
    have hu : parseUint (Nat.toDigits 10 n.toNat) = (n.toNat, none) :=
      parseUint_toDigits _ (by unfold maxUint64; omega)
    have hplus : c ≠ '+' := by rintro rfl; exact absurd hc (by decide)
    have hminus : c ≠ '-' := by rintro rfl; exact absurd hc (by decide)
    have hb : ¬ n.toNat ≥ 2 ^ 63 := by omega
    simp only [hneg, if_false]
    have hpi : parseInt (Nat.toDigits 10 n.toNat)
        = parseSigned false (Nat.toDigits 10 n.toNat) := by
      rw [hcs]
      unfold parseInt
      split
      · rename_i heq; cases heq
      · rename_i heq; injection heq with h1 h2; exact absurd h1 hplus
      · rename_i heq; injection heq with h1 h2; exact absurd h1 hminus
      · rfl
    rw [hpi]
    simp only [parseSigned, hu, Bool.not_false, Bool.true_and, decide_eq_true_eq, hb,
      if_false, Bool.false_and]
    simp only [Bool.false_eq_true, if_false, Prod.mk.injEq, and_true]
    omega

/-- What `Atoi` accepts is a value of `int`, and on a syntax error its value is 0. -/
theorem parseSigned_value (neg : Bool) (digits : List Char) :
    ((parseSigned neg digits).2 = none →
        minInt64 ≤ (parseSigned neg digits).1 ∧ (parseSigned neg digits).1 ≤ maxInt64)
    ∧ ((parseSigned neg digits).2 = some NumErr.ErrSyntax → (parseSigned neg digits).1 = 0) := by
  unfold parseSigned
  split
  · simp
  · rename_i un e hne
    cases neg <;> simp only [Bool.not_false, Bool.not_true, Bool.true_and, Bool.false_and,
      decide_eq_true_eq, Bool.false_eq_true, if_false, if_true]
    · split
      · simp
      · rename_i hlt
        simp only [true_implies, reduceCtorEq, false_implies, and_true]
        unfold minInt64 maxInt64
        omega
    · split
      · simp
      · rename_i hlt
        simp only [true_implies, reduceCtorEq, false_implies, and_true]
        unfold minInt64 maxInt64
        omega

/-- What `Atoi` accepts is a value of `int`. -/
theorem Atoi_accepts_int (s : String) (hs : (Atoi s).2 = none) :
    minInt64 ≤ (Atoi s).1 ∧ (Atoi s).1 ≤ maxInt64 := by
  unfold Atoi parseInt at hs ⊢
  split at hs
  · simp at hs
  · exact (parseSigned_value _ _).1 hs
  · exact (parseSigned_value _ _).1 hs
  · exact (parseSigned_value _ _).1 hs

/-- C13: when the translation of the filter and the "hosting.disk.list" call both
succeed, DescribeDisks returns the response of the remote side mapped element by element
through fromDiskv4, with a nil error: the result has the length of the response and its
i-th element is fromDiskv4 of the i-th wire disk; the one call made is the list call. -/
theorem describe_disks_maps_response (h : Hostingv4) (f : DiskFilter) (log : List Call)
    (hf : (toDiskFilterv4 f).2 = none)
    (hs : (h.Send log (listDisksCall f)).err = none) :
    DescribeDisks h f log
      = (((h.Send log (listDisksCall f)).disks.map fromDiskv4, none),
          log ++ [listDisksCall f])
    ∧ (DescribeDisks h f log).1.1.length = (h.Send log (listDisksCall f)).disks.length
    ∧ ∀ i : Nat, (DescribeDisks h f log).1.1[i]?
        = ((h.Send log (listDisksCall f)).disks[i]?).map fromDiskv4 := by
  have hrun : DescribeDisks h f log
      = (((h.Send log (listDisksCall f)).disks.map fromDiskv4, none),
          log ++ [listDisksCall f]) := by
    rcases hT : toDiskFilterv4 f with ⟨fv, _ | e⟩
    swap
    · rw [hT] at hf; cases hf
    simp only [listDisksCall, hT] at hs
    simp only [DescribeDisks, listDisksCall, hT, hs]
  refine ⟨hrun, ?_, ?_⟩
  · rw [hrun]; simp
  · intro i
    rw [hrun]
    simp

/-- C13 at the filter DiskFilter{ID: "1"} and a remote side that answers with three wire
disks, two of them equal: they are returned in that order, none dropped. -/
theorem describe_disks_maps_response_witness :
    ((toDiskFilterv4 { ID := "1" }).2 = none
      ∧ ((listCaller [{ ID := 4, Name := "b" }, { ID := 1, Name := "a" },
            { ID := 4, Name := "b" }]).Send [] (listDisksCall { ID := "1" })).err = none)
    ∧ DescribeDisks (listCaller [{ ID := 4, Name := "b" }, { ID := 1, Name := "a" },
          { ID := 4, Name := "b" }]) { ID := "1" } []
      = (([{ ID := "4", Name := "b", RegionID := "0" },
            { ID := "1", Name := "a", RegionID := "0" },
            { ID := "4", Name := "b", RegionID := "0" }], none),
          [⟨"hosting.disk.list", [Param.map [("id", Scalar.int 1)]]⟩]) :=
  ⟨⟨by decide, by decide⟩,
    (describe_disks_maps_response (listCaller [{ ID := 4, Name := "b" },
        { ID := 1, Name := "a" }, { ID := 4, Name := "b" }]) { ID := "1" } []
      (by decide) (by decide)).1.trans (by decide)⟩

/-! ## Identifiers -/

/-- C14 fails at the identifier "007" (and at "+5"): strconv.Atoi accepts it, and the way
to the wire integer and back gives "7" (and "5"), for the ID and the RegionID of a disk
and for the ID of an SSH key. -/
theorem id_round_trip_counterexample :
    (Atoi "007").2 = none
    ∧ (fromDiskv4 { ID := (toDiskFilterv4 { ID := "007" }).1.ID }).ID = "7"
    ∧ (fromDiskv4 { ID := (toDiskFilterv4 { ID := "007" }).1.ID }).ID ≠ "007"
    ∧ (fromDiskv4 { RegionID := (toDiskFilterv4 { RegionID := "007" }).1.RegionID }).RegionID
        ≠ "007"
    ∧ (toSSHKey { ID := (Atoi "007").1 }).ID ≠ "007"
    ∧ Itoa (Atoi "007").1 ≠ "007"
    ∧ (Atoi "+5").2 = none
    ∧ Itoa (Atoi "+5").1 ≠ "+5" := by
  decide

/-- C14 as amended: for every identifier string s that strconv.Atoi accepts, the way to
the wire integer and back gives Itoa(Atoi(s)), the decimal form of its value, for the ID
and the RegionID of a disk and for the ID of an SSH key; and this is s itself if and only
if s is the decimal form of a value of int (s = Itoa(n) for an int n). -/
theorem id_round_trip_canonical (s : String) (hs : (Atoi s).2 = none) :
    (fromDiskv4 { ID := (toDiskFilterv4 { ID := s }).1.ID }).ID = Itoa (Atoi s).1
    ∧ (fromDiskv4 { RegionID := (toDiskFilterv4 { RegionID := s }).1.RegionID }).RegionID
        = Itoa (Atoi s).1
    ∧ (toSSHKey { ID := (Atoi s).1 }).ID = Itoa (Atoi s).1
    ∧ (Itoa (Atoi s).1 = s ↔ ∃ n : Int, minInt64 ≤ n ∧ n ≤ maxInt64 ∧ s = Itoa n) := by
  have hempty : Atoi "" = (0, some NumErr.ErrSyntax) := by decide
  rcases hA : Atoi s with ⟨v, _ | e⟩
  swap
  · rw [hA] at hs; cases hs
  refine ⟨?_, ?_, rfl, ?_⟩
  · simp [fromDiskv4, toDiskFilterv4, hempty, hA, isIgnorableErr]
  · simp [fromDiskv4, toDiskFilterv4, hempty, hA, isIgnorableErr]
  · constructor
    · intro hv
      have hr := Atoi_accepts_int s hs
      rw [hA] at hr
      exact ⟨v, hr.1, hr.2, hv.symm⟩
    · rintro ⟨n, hlo, hhi, rfl⟩
      rw [Atoi_Itoa n hlo hhi] at hA
      cases hA
      rfl

/-- C14 as amended, at the identifier "42". -/
theorem id_round_trip_canonical_witness :
    (Atoi "42").2 = none
    ∧ ((fromDiskv4 { ID := (toDiskFilterv4 { ID := "42" }).1.ID }).ID = Itoa (Atoi "42").1
      ∧ (fromDiskv4 { RegionID := (toDiskFilterv4 { RegionID := "42" }).1.RegionID }).RegionID
          = Itoa (Atoi "42").1
      ∧ (toSSHKey { ID := (Atoi "42").1 }).ID = Itoa (Atoi "42").1
      ∧ (Itoa (Atoi "42").1 = "42"
          ↔ ∃ n : Int, minInt64 ≤ n ∧ n ≤ maxInt64 ∧ "42" = Itoa n)) :=
  ⟨by decide, id_round_trip_canonical "42" (by decide)⟩

/-- C15: for every wire disk d (its integers being values of int), fromDiskv4(d) copies
Name, State, Type and BootDisk, and strconv.Atoi recovers the wire integers from its
strings: Atoi(ID) = d.ID, Atoi(RegionID) = d.RegionID, VM has the length of d.VM and
Atoi(VM[i]) = d.VM[i]; for every wire key k, toSSHKey(k) copies Fingerprint, Name and
Value, and Atoi of its ID is k.ID. -/
theorem wire_to_domain_is_lossless (d : diskv4) (k : sshkeyv4)
    (hid : minInt64 ≤ d.ID ∧ d.ID ≤ maxInt64)
    (hregion : minInt64 ≤ d.RegionID ∧ d.RegionID ≤ maxInt64)
    (hvm : ∀ v ∈ d.VM, minInt64 ≤ v ∧ v ≤ maxInt64)
    (hkey : minInt64 ≤ k.ID ∧ k.ID ≤ maxInt64) :
    ((fromDiskv4 d).Name = d.Name ∧ (fromDiskv4 d).State = d.State
      ∧ (fromDiskv4 d).Typ = d.Typ ∧ (fromDiskv4 d).BootDisk = d.BootDisk)
    ∧ Atoi (fromDiskv4 d).ID = (d.ID, none)
    ∧ Atoi (fromDiskv4 d).RegionID = (d.RegionID, none)
    ∧ (fromDiskv4 d).VM.length = d.VM.length
    ∧ (∀ i : Nat, ((fromDiskv4 d).VM[i]?).map Atoi = (d.VM[i]?).map (fun v => (v, none)))
    ∧ ((toSSHKey k).Fingerprint = k.Fingerprint ∧ (toSSHKey k).Name = k.Name
      ∧ (toSSHKey k).Value = k.Value)
    ∧ Atoi (toSSHKey k).ID = (k.ID, none) := by
  refine ⟨⟨rfl, rfl, rfl, rfl⟩, Atoi_Itoa _ hid.1 hid.2, Atoi_Itoa _ hregion.1 hregion.2,
    by simp [fromDiskv4], ?_, ⟨rfl, rfl, rfl⟩, Atoi_Itoa _ hkey.1 hkey.2⟩
  intro i
  simp only [fromDiskv4, List.getElem?_map, Option.map_map]
  cases hi : d.VM[i]? with
  | none => rfl
  | some v =>
    have hv := hvm v (List.getElem?_mem hi)
    simp [Atoi_Itoa v hv.1 hv.2]

/-- C15 at a wire disk like the first one of the tests and a wire key. -/
theorem wire_to_domain_is_lossless_witness :
    ((minInt64 ≤ sampleWireDisk.ID ∧ sampleWireDisk.ID ≤ maxInt64)
      ∧ (minInt64 ≤ sampleWireDisk.RegionID ∧ sampleWireDisk.RegionID ≤ maxInt64)
      ∧ (∀ v ∈ sampleWireDisk.VM, minInt64 ≤ v ∧ v ≤ maxInt64)
      ∧ (minInt64 ≤ ({ ID := 12, Name := "key" } : sshkeyv4).ID
        ∧ ({ ID := 12, Name := "key" } : sshkeyv4).ID ≤ maxInt64))
    ∧ Atoi (fromDiskv4 sampleWireDisk).ID = (1, none)
    ∧ Atoi (fromDiskv4 sampleWireDisk).RegionID = (4, none)
    ∧ (fromDiskv4 sampleWireDisk).VM.length = 2
    ∧ Atoi (toSSHKey { ID := 12, Name := "key" }).ID = (12, none) := by
  have key := wire_to_domain_is_lossless sampleWireDisk { ID := 12, Name := "key" }
    (by decide) (by decide) (by decide) (by decide)
  exact ⟨by decide, key.2.1, key.2.2.1, key.2.2.2.1, key.2.2.2.2.2.2⟩

/-- C16, the code at a DiskSpec with an empty RegionID, whatever its Name and Size:
toDiskSpecv4 fails with the parse error for "DiskSpec"/"RegionID", and CreateDisk returns
that error with the zero Disk without invoking Send; the comment of CreateDisk says that
a region left unspecified defaults to FR_SD3. -/
theorem create_disk_rejects_empty_region (h : Hostingv4) (fuel : Nat) (log : List Call)
    (name : String) (size : Nat) :
    toDiskSpecv4 { RegionID := "", Name := name, Size := size }
      = ({}, some (internalParseError "DiskSpec" "RegionID"))
    ∧ CreateDisk h fuel { RegionID := "", Name := name, Size := size } log
      = (some ({}, some (internalParseError "DiskSpec" "RegionID")), log) := by
  have hempty : Atoi "" = (0, some NumErr.ErrSyntax) := by decide
  constructor
  · simp only [toDiskSpecv4, hempty]
  · simp only [CreateDisk, toDiskSpecv4, hempty]

/-! ## SSH keys -/

/-- C17, the code at an SSHKey with an empty ID, whatever its other fields: DeleteKey
does not invoke Send, and the error it returns is the one of strconv.Atoi on the empty
string, a NumError wrapping ErrSyntax, not a HostingError with ErrNotProvided as DeleteDisk
returns for a Disk with an empty ID. -/
theorem delete_key_empty_id_is_syntax_error (h : Hostingv4) (log : List Call)
    (fingerprint name value : String) (fuel : Nat) :
    DeleteKey h { ID := "", Fingerprint := fingerprint, Name := name, Value := value } log
      = (some (GoError.numError "" NumErr.ErrSyntax), log)
    ∧ DeleteDisk h fuel { ID := "" } log
      = (some (some (GoError.hostingError "DeleteDisk" "Disk" "ID" ErrKind.ErrNotProvided)),
          log) := by
  have hempty : Atoi "" = (0, some NumErr.ErrSyntax) := by decide
  constructor
  · simp only [DeleteKey, hempty]
  · simp [DeleteDisk]

/-- The loop of ListKeys: one fetch per entry, in order; the keys fetched are appended
to those already held. -/
theorem ListKeysLoop_run (h : Hostingv4) (ks : List sshkeyv4) :
    ∀ (acc : List SSHKey) (log : List Call),
      (ListKeysLoop h ks acc log).2 = log ++ ks.map (fun k => keyInfoCall k.ID)
      ∧ ∃ out, (ListKeysLoop h ks acc log).1 = acc ++ out ∧ out.length = ks.length
        ∧ ∀ i : Nat, out[i]? = (ks[i]?).map (fun k => toSSHKey
            (h.Send (log ++ (ks.take i).map (fun k => keyInfoCall k.ID))
              (keyInfoCall k.ID)).key) := by
  induction ks with
  | nil => intro acc log; exact ⟨by simp [ListKeysLoop], [], by simp [ListKeysLoop]⟩
  | cons k ks ih =>
    intro acc log
    obtain ⟨hlog, out, hout, hlen, hget⟩ :=
      ih (acc ++ [toSSHKey (h.Send log (keyInfoCall k.ID)).key]) (log ++ [keyInfoCall k.ID])
    have hstep : ListKeysLoop h (k :: ks) acc log
        = ListKeysLoop h ks (acc ++ [toSSHKey (h.Send log (keyInfoCall k.ID)).key])
            (log ++ [keyInfoCall k.ID]) := by
      simp [ListKeysLoop, keyFromID, keyInfoCall]
    rw [hstep]
    refine ⟨by rw [hlog]; simp, toSSHKey (h.Send log (keyInfoCall k.ID)).key :: out,
      by rw [hout]; simp, by simp [hlen], ?_⟩
    intro i
    cases i with
    | zero => simp
    | succ j =>
      have hj := hget j
      simp only [List.getElem?_cons_succ, List.take_succ_cons, List.map_cons]
      rw [hj]
      simp

/-- C18: with N entries in the response of "hosting.ssh.list", ListKeys makes exactly
1 + N calls: "hosting.ssh.list" with an empty parameter list, then one "hosting.ssh.info"
per entry with parameter [entry.ID], in the order of the list; it returns exactly N keys,
the i-th being toSSHKey of the response of the i-th "hosting.ssh.info" call. -/
theorem list_keys_fetches_each_key (h : Hostingv4) (log : List Call) :
    (ListKeys h log).2
      = log ++ (⟨"hosting.ssh.list", []⟩ : Call)
          :: (h.Send log ⟨"hosting.ssh.list", []⟩).keys.map
              (fun k => (⟨"hosting.ssh.info", [Param.int k.ID]⟩ : Call))
    ∧ (ListKeys h log).2.length
      = log.length + (1 + (h.Send log ⟨"hosting.ssh.list", []⟩).keys.length)
    ∧ (ListKeys h log).1.length = (h.Send log ⟨"hosting.ssh.list", []⟩).keys.length
    ∧ ∀ i : Nat, (ListKeys h log).1[i]?
        = ((h.Send log ⟨"hosting.ssh.list", []⟩).keys[i]?).map (fun k => toSSHKey
            (h.Send (log ++ (⟨"hosting.ssh.list", []⟩ : Call)
                :: ((h.Send log ⟨"hosting.ssh.list", []⟩).keys.take i).map
                    (fun k => (⟨"hosting.ssh.info", [Param.int k.ID]⟩ : Call)))
              ⟨"hosting.ssh.info", [Param.int k.ID]⟩).key) := by
  obtain ⟨hlog, out, hout, hlen, hget⟩ :=
    ListKeysLoop_run h (h.Send log ⟨"hosting.ssh.list", []⟩).keys []
      (log ++ [⟨"hosting.ssh.list", []⟩])
  have hrun : ListKeys h log
      = ListKeysLoop h (h.Send log ⟨"hosting.ssh.list", []⟩).keys []
          (log ++ [⟨"hosting.ssh.list", []⟩]) := rfl
  have hcall : (fun k : sshkeyv4 => keyInfoCall k.ID)
      = (fun k : sshkeyv4 => (⟨"hosting.ssh.info", [Param.int k.ID]⟩ : Call)) := rfl
  rw [hcall] at hlog
  simp only [hcall, keyInfoCall, List.append_assoc, List.singleton_append] at hget
  simp only [List.nil_append] at hout
  refine ⟨?_, ?_, ?_, ?_⟩
  · rw [hrun, hlog]; simp
  · rw [hrun, hlog]; simp; omega
  · rw [hrun, hout, hlen]
  · intro i
    rw [hrun, hout]
    exact hget i

/-- C19: for an SSHKey whose ID strconv.Atoi accepts, DeleteKey invokes Send exactly
once, with "hosting.ssh.delete" and [id]; it returns nil when the boolean response is
true, whatever error Send returned; otherwise it returns the error of Send unchanged, so
that a response of false without error is returned as nil. -/
theorem delete_key_trusts_the_flag (h : Hostingv4) (key : SSHKey) (log : List Call)
    (hid : (Atoi key.ID).2 = none) :
    deleteKeyCall key = ⟨"hosting.ssh.delete", [Param.int (Atoi key.ID).1]⟩
    ∧ (DeleteKey h key log).2 = log ++ [deleteKeyCall key]
    ∧ ((h.Send log (deleteKeyCall key)).flag = true → (DeleteKey h key log).1 = none)
    ∧ ((h.Send log (deleteKeyCall key)).flag = false →
        (DeleteKey h key log).1 = (h.Send log (deleteKeyCall key)).err)
    ∧ ((h.Send log (deleteKeyCall key)).flag = false →
        (h.Send log (deleteKeyCall key)).err = none → (DeleteKey h key log).1 = none) := by
  refine ⟨rfl, ?_⟩
  rcases hA : Atoi key.ID with ⟨i, _ | e⟩
  swap
  · rw [hA] at hid; cases hid
  refine ⟨?_, ?_, ?_, ?_⟩
  · simp only [DeleteKey, deleteKeyCall, hA]
    split <;> rfl
  · intro hf
    simp only [deleteKeyCall, hA] at hf
    simp [DeleteKey, hA, hf]
  · intro hf
    simp only [deleteKeyCall, hA] at hf
    simp [DeleteKey, deleteKeyCall, hA, hf]
  · intro hf he
    simp only [deleteKeyCall, hA] at hf he
    simp [DeleteKey, hA, hf, he]

/-- C19 at SSHKey{ID: "12"}: a response of true together with an error is returned as
nil, a response of false with an error as that error, a response of false without error
as nil; each time after the one call "hosting.ssh.delete" with [12]. -/
theorem delete_key_trusts_the_flag_witness :
    (Atoi ({ ID := "12" } : SSHKey).ID).2 = none
    ∧ DeleteKey (flagCaller true (some (GoError.remote "down"))) { ID := "12" } []
        = (none, [⟨"hosting.ssh.delete", [Param.int 12]⟩])
    ∧ DeleteKey (flagCaller false (some (GoError.remote "down"))) { ID := "12" } []
        = (some (GoError.remote "down"), [⟨"hosting.ssh.delete", [Param.int 12]⟩])
    ∧ DeleteKey (flagCaller false none) { ID := "12" } []
        = (none, [⟨"hosting.ssh.delete", [Param.int 12]⟩]) := by
  have h1 := delete_key_trusts_the_flag (flagCaller true (some (GoError.remote "down")))
    { ID := "12" } [] (by decide)
  have h2 := delete_key_trusts_the_flag (flagCaller false (some (GoError.remote "down")))
    { ID := "12" } [] (by decide)
  have h3 := delete_key_trusts_the_flag (flagCaller false none) { ID := "12" } [] (by decide)
  refine ⟨by decide, ?_, ?_, ?_⟩
  · exact Prod.ext (h1.2.2.1 rfl) (h1.2.1.trans (by decide))
  · exact Prod.ext (h2.2.2.2.1 rfl) (h2.2.1.trans (by decide))
  · exact Prod.ext (h3.2.2.2.2 rfl rfl) (h3.2.1.trans (by decide))

/-- ListKeys against a remote side that lists two keys: three calls, and the two keys
returned are those of the fetches (values "1" and "2"), not the entries of the list. -/
theorem list_keys_example :
    ListKeys keysCaller []
      = ([{ ID := "9", Value := "1" }, { ID := "9", Value := "2" }],
          [⟨"hosting.ssh.list", []⟩, ⟨"hosting.ssh.info", [Param.int 3]⟩,
            ⟨"hosting.ssh.info", [Param.int 5]⟩]) := by
  decide


/-! ## `Atoi` on well-formed decimal integers -/

end GoGandi
